import Mathlib

/-!
The gpxgo document model, aggregation engine and geodesy.

A shallow embedding of `gpx.go` and `geo.go`.

* `float64` values are elements of a linearly ordered field `F` (exact
  arithmetic).  Definitions are generic in `F`, so they evaluate over `ℚ`;
  results that need the transcendental functions are stated over `ℝ`.
* Where the rounding of `float64` decides the result (the threshold `.2` of
  `Distance`, the square roots of `HaversineDistance`), the arithmetic
  operations are the fields of `Float64Ops`; `float64Ops` rounds each exact
  result to 53 significant bits.
* The functions of Go's `math` package used by the code are the fields of the
  class `GoMath`.
* A Go pointer that may be `nil` is an `Option`; a slice is a `List`.
* A method with a pointer receiver returns the receiver as it is after the call.
* A run-time panic is the `error` case of `Except GoPanic`.
* The calls into `encoding/xml` and `os` are parameters of the functions that
  make them; the `xml` struct tags are data.
* Where sharing between two documents matters, the slices are slice headers
  into a memory of backing arrays (`Memory`, `MGpx`).
-/

set_option autoImplicit false

namespace gpxgo

/-! ## Data model (`gpx.go`, lines 13-144) -/

/-- The `xml.Name` of `encoding/xml`. -/
structure XmlName where
  Space : String := ""
  Local : String := ""
deriving DecidableEq

/-- The struct `Email`. -/
structure Email where
  XMLName : XmlName := {}
  Id : String := ""
  Domain : String := ""
deriving DecidableEq

/-- The struct `Link`. -/
structure Link where
  XMLName : XmlName := {}
  Href : String := ""
  Text : String := ""
  Type_ : String := ""
deriving DecidableEq

/-- The struct `Person`. -/
structure Person where
  XMLName : XmlName := {}
  Name : String := ""
  Email : Option Email := none
  Link : Option Link := none
deriving DecidableEq

/-- The struct `Extensions`. -/
structure Extensions where
  XMLName : XmlName := {}
  Info : String := ""
deriving DecidableEq

/-- The struct `Copyright`. -/
structure Copyright where
  XMLName : XmlName := {}
  Author : String := ""
  Year : String := ""
  License : String := ""
deriving DecidableEq

/-- The struct `Bounds`. -/
structure Bounds (F : Type) [Zero F] where
  XMLName : XmlName := {}
  MinLat : F := 0
  MinLon : F := 0
  MaxLat : F := 0
  MaxLon : F := 0
deriving DecidableEq

/-- The struct `Metadata`. -/
structure Metadata (F : Type) [Zero F] where
  XMLName : XmlName := {}
  Name : String := ""
  Desc : String := ""
  Author : Option Person := none
  Copyright : Option Copyright := none
  Link : List Link := []
  Time : String := ""
  Keywords : String := ""
  Bounds : Option (Bounds F) := none
  Extensions : Option Extensions := none
deriving DecidableEq

/-- The struct `Wpt`. -/
structure Wpt (F : Type) [Zero F] where
  Lat : F := 0
  Lon : F := 0
  Ele : F := 0
  Time : String := ""
  Magvar : String := ""
  Geoidheight : String := ""
  Name : String := ""
  Cmt : String := ""
  Desc : String := ""
  Src : String := ""
  Link : List Link := []
  Sym : String := ""
  Type_ : String := ""
  Fix : String := ""
  Sat : Nat := 0
  Hdop : F := 0
  Vdop : F := 0
  Pdop : F := 0
  Ageofdgpsdata : F := 0
  Dgpsid : Int := 0
  Extensions : Option Extensions := none
deriving DecidableEq

/-- The slice type `Waypoints`. -/
abbrev Waypoints (F : Type) [Zero F] := List (Wpt F)

/-- The struct `Rte`. -/
structure Rte (F : Type) [Zero F] where
  XMLName : XmlName := {}
  Name : String := ""
  Cmt : String := ""
  Desc : String := ""
  Src : String := ""
  Link : List Link := []
  Number : Nat := 0
  Type_ : String := ""
  Extensions : String := ""
  Waypoints : Waypoints F := []
deriving DecidableEq

/-- The struct `Trkseg`. -/
structure Trkseg (F : Type) [Zero F] where
  XMLName : XmlName := {}
  Waypoints : Waypoints F := []
  Extensions : Option Extensions := none
deriving DecidableEq

/-- The struct `Trk`. -/
structure Trk (F : Type) [Zero F] where
  XMLName : XmlName := {}
  Name : String := ""
  Cmt : String := ""
  Desc : String := ""
  Src : String := ""
  Link : List Link := []
  Number : Nat := 0
  Type_ : String := ""
  Extensions : String := ""
  Segments : List (Trkseg F) := []
deriving DecidableEq

/-- The struct `Gpx`. -/
structure Gpx (F : Type) [Zero F] where
  XMLName : XmlName := {}
  XMLNs : String := ""
  XMLNsXsi : String := ""
  XMLSchemaLoc : String := ""
  Version : String := ""
  Creator : String := ""
  Metadata : Option (Metadata F) := none
  Waypoints : Waypoints F := []
  Routes : List (Rte F) := []
  Tracks : List (Trk F) := []
  Extensions : String := ""
deriving DecidableEq

/-- A run-time panic of the Go program. -/
inductive GoPanic where
  | indexOutOfRange
deriving DecidableEq

section Aggregation

variable {F : Type} [LinearOrderedField F]

/-- `NewGpx` (gpx.go:184). -/
def NewGpx : Gpx F :=
  { XMLNs := "http://www.topografix.com/GPX/1/1"
    XMLNsXsi := "http://www.w3.org/2001/XMLSchema-instance"
    XMLSchemaLoc := "http://www.topografix.com/GPX/1/1 http://www.topografix.com/GPX/1/1/gpx.xsd"
    Version := "1.1"
    Creator := "https://github.com/pikeszfish/gpxgo" }

/-! ### Waypoint mutators (gpx.go:621-627) -/

/-- `(wp *Wpt) RemoveTime`: the waypoint pointed to, after the call. -/
def Wpt.RemoveTime (wp : Wpt F) : Wpt F :=
  { wp with Time := "" }

/-- `(wp *Wpt) RemoveElevation`: the waypoint pointed to, after the call. -/
def Wpt.RemoveElevation (wp : Wpt F) : Wpt F :=
  { wp with Ele := 0 }

/-- A `for _, v := range xs { v.m() }` loop whose body calls a pointer-receiver
method on the loop variable.  The slices of this package hold struct values,
not pointers, so `v` is a variable of the loop that receives a copy of each
element, and the call `v.m()` is `(&v).m()`: it writes to that variable.  The
methods called this way (`RemoveTime`, `RemoveElevation`) assign to fields of
their receiver only, never through a slice or a pointer held by it.  The state
of the loop is the owner of the slice together with the loop variable; only the
latter is assigned to. -/
def rangeCall {σ α : Type} (owner : σ) (xs : List α) (m : α → α) : σ × Option α :=
  xs.foldl (fun st x => (st.1, some (m x))) (owner, none)

/-- `(ts *Trkseg) RemoveTime` (gpx.go:552): the segment after the call. -/
def Trkseg.RemoveTime (ts : Trkseg F) : Trkseg F :=
  (rangeCall ts ts.Waypoints Wpt.RemoveTime).1

/-- `(ts *Trkseg) RemoveElevation` (gpx.go:558): the segment after the call. -/
def Trkseg.RemoveElevation (ts : Trkseg F) : Trkseg F :=
  (rangeCall ts ts.Waypoints Wpt.RemoveElevation).1

/-- `(t *Trk) RemoveTime` (gpx.go:426): the track after the call. -/
def Trk.RemoveTime (t : Trk F) : Trk F :=
  (rangeCall t t.Segments Trkseg.RemoveTime).1

/-- `(t *Trk) RemoveElevation` (gpx.go:469): the track after the call. -/
def Trk.RemoveElevation (t : Trk F) : Trk F :=
  (rangeCall t t.Segments Trkseg.RemoveElevation).1

/-- `(g *Gpx) RemoveTime` (gpx.go:358): the document after the call. -/
def Gpx.RemoveTime (g : Gpx F) : Gpx F :=
  (rangeCall g g.Tracks Trk.RemoveTime).1

/-- `(g *Gpx) RemoveElevation` (gpx.go:364): the document after the call. -/
def Gpx.RemoveElevation (g : Gpx F) : Gpx F :=
  (rangeCall g g.Tracks Trk.RemoveElevation).1

/-! ### Bounds (gpx.go:196-210, 296-302, 402-408, 481-492) -/

/-- The constant `math.MaxFloat64`, that is `2^1023 * (2 - 2^-52)`. -/
def MaxFloat64 : F := 2 ^ 1024 - 2 ^ 971

/-- `minBounds` (gpx.go:196). -/
def minBounds : gpxgo.Bounds F :=
  { MaxLat := -MaxFloat64
    MinLat := MaxFloat64
    MaxLon := -MaxFloat64
    MinLon := MaxFloat64 }

/-- `(b *Bounds) merge` (gpx.go:205): the accumulator `b` after the call. -/
def Bounds.merge (b b2 : gpxgo.Bounds F) : gpxgo.Bounds F :=
  let b := { b with MaxLat := max b.MaxLat b2.MaxLat }
  let b := { b with MinLat := min b.MinLat b2.MinLat }
  let b := { b with MaxLon := max b.MaxLon b2.MaxLon }
  let b := { b with MinLon := min b.MinLon b2.MinLon }
  b

/-- One iteration of the loop of `Trkseg.Bounds`: the state is `(b, b2)`. -/
def Trkseg.boundsStep (st : gpxgo.Bounds F × gpxgo.Bounds F) (wp : Wpt F) :
    gpxgo.Bounds F × gpxgo.Bounds F :=
  let b2 := { st.2 with MaxLat := wp.Lat }
  let b2 := { b2 with MaxLon := wp.Lon }
  let b2 := { b2 with MinLat := wp.Lat }
  let b2 := { b2 with MinLon := wp.Lon }
  (st.1.merge b2, b2)

/-- `(ts *Trkseg) Bounds` (gpx.go:481). -/
def Trkseg.Bounds (ts : Trkseg F) : gpxgo.Bounds F :=
  (ts.Waypoints.foldl Trkseg.boundsStep (minBounds, minBounds)).1

/-- `(t *Trk) Bounds` (gpx.go:402). -/
def Trk.Bounds (t : Trk F) : gpxgo.Bounds F :=
  t.Segments.foldl (fun b seg => b.merge seg.Bounds) minBounds

/-- `(g *Gpx) Bounds` (gpx.go:296). -/
def Gpx.Bounds (g : Gpx F) : gpxgo.Bounds F :=
  g.Tracks.foldl (fun b trk => b.merge trk.Bounds) minBounds

/-! ### Elevation extremes (gpx.go:333-356, 445-467, 536-550) -/

/-- One iteration of a min/max scan: `if e < min { min = e }; if e > max { max = e }`. -/
def extremesStep (mm : F × F) (e : F) : F × F :=
  let min := if e < mm.1 then e else mm.1
  let max := if e > mm.2 then e else mm.2
  (min, max)

/-- `(ts *Trkseg) ElevationExtremes` (gpx.go:536): `min` and `max` are declared
with `var`, so both start at the zero value. -/
def Trkseg.ElevationExtremes (ts : Trkseg F) : F × F :=
  ts.Waypoints.foldl (fun mm wp => extremesStep mm wp.Ele) (0, 0)

/-- The index expression `xs[i]`, which panics when `i` is out of range. -/
def index {α : Type} (xs : List α) (i : Nat) : Except GoPanic α :=
  match xs[i]? with
  | some x => .ok x
  | none => .error .indexOutOfRange

/-- `(t *Trk) ElevationExtremes` (gpx.go:445). -/
def Trk.ElevationExtremes (t : Trk F) : Except GoPanic (F × F) := do
  let elevations : List F := t.Segments.foldl
    (fun elevations seg =>
      let mm := seg.ElevationExtremes
      (elevations ++ [mm.1]) ++ [mm.2]) []
  let min ← index elevations 0
  let max ← index elevations 0
  pure (elevations.foldl extremesStep (min, max))

/-- `(g *Gpx) ElevationExtremes` (gpx.go:333). -/
def Gpx.ElevationExtremes (g : Gpx F) : Except GoPanic (F × F) := do
  let elevations : List F ← g.Tracks.foldlM
    (fun elevations trk => do
      let mm ← trk.ElevationExtremes
      pure ((elevations ++ [mm.1]) ++ [mm.2])) []
  let min ← index elevations 0
  let max ← index elevations 0
  pure (elevations.foldl extremesStep (min, max))

/-! ### Clone (gpx.go:231-294) -/

/-- The built-in `copy(dst, src)`: the destination after the call. -/
def goCopy {α : Type} (dst src : List α) : List α :=
  src.take dst.length ++ dst.drop src.length

/-- `(g *Gpx) Clone` (gpx.go:231). -/
def Gpx.Clone (g : Gpx F) : Gpx F :=
  let newgpx : Gpx F := {}
  let newgpx := { newgpx with XMLNs := g.XMLNs }
  let newgpx := { newgpx with XMLNsXsi := g.XMLNsXsi }
  let newgpx := { newgpx with XMLSchemaLoc := g.XMLSchemaLoc }
  let newgpx := { newgpx with Version := g.Version }
  let newgpx := { newgpx with Creator := g.Creator }
  let newgpx :=
    match g.Metadata with
    | none => newgpx
    | some md =>
      let nm : gpxgo.Metadata F :=
        { Name := md.Name
          Desc := md.Desc
          Link := List.replicate md.Link.length {}
          Time := md.Time
          Keywords := md.Keywords
          Extensions := md.Extensions }
      let nm := { nm with Link := goCopy nm.Link md.Link }
      let nm :=
        match md.Author with
        | none => nm
        | some author =>
          let na : Person := { Name := author.Name }
          let na :=
            match author.Email with
            | none => na
            | some email => { na with Email := some { Id := email.Id, Domain := email.Domain } }
          let na :=
            match author.Link with
            | none => na
            | some link =>
              { na with Link := some { Href := link.Href, Text := link.Text, Type_ := link.Type_ } }
          { nm with Author := some na }
      let nm :=
        match md.Copyright with
        | none => nm
        | some c =>
          { nm with Copyright := some { Author := c.Author, Year := c.Year, License := c.License } }
      let nm :=
        match md.Bounds with
        | none => nm
        | some b =>
          let nb : gpxgo.Bounds F :=
            { MaxLat := b.MaxLat, MinLat := b.MinLat, MaxLon := b.MaxLon, MinLon := b.MinLon }
          { nm with Bounds := some nb }
      { newgpx with Metadata := some nm }
  let newgpx := { newgpx with Waypoints := List.replicate g.Waypoints.length {} }
  let newgpx := { newgpx with Routes := List.replicate g.Routes.length {} }
  let newgpx := { newgpx with Tracks := List.replicate g.Tracks.length {} }
  let newgpx := { newgpx with Waypoints := goCopy newgpx.Waypoints g.Waypoints }
  let newgpx := { newgpx with Routes := goCopy newgpx.Routes g.Routes }
  let newgpx := { newgpx with Tracks := goCopy newgpx.Tracks g.Tracks }
  newgpx

end Aggregation

/-! ## Geodesy (`geo.go`) -/

/-- The functions and the constant of Go's `math` package that `geo.go` calls
(`math.Abs` is the absolute value of the ordered field). -/
class GoMath (F : Type) where
  Pi : F
  Sqrt : F → F
  Sin : F → F
  Cos : F → F
  Asin : F → F
  Atan : F → F
  Atan2 : F → F → F
  Pow : F → F → F

/-- The struct `LocationDelta`. -/
structure LocationDelta (F : Type) [Zero F] where
  Distance : F := 0
  Angle : F := 0
deriving DecidableEq

/-- The struct `Location`. -/
structure Location (F : Type) [Zero F] where
  Latitude : F := 0
  Longitude : F := 0
  Elevation : F := 0
deriving DecidableEq

section Geodesy

variable {F : Type} [LinearOrderedField F] [GoMath F]

/-- The constant `ONE_DEGREE` (geo.go:9): one degree in meters. -/
def ONE_DEGREE : F := 1000 * 10000.8 / 90

/-- The constant `EARTH_RADIUS` (geo.go:10). -/
def EARTH_RADIUS : F := 6371 * 1000

/-- `Radians` (geo.go:27). -/
def Radians (degrees : F) : F :=
  degrees * GoMath.Pi / 180

/-- `Degrees` (geo.go:31). -/
def Degrees (radians : F) : F :=
  radians * 180 / GoMath.Pi

/-- `Bearing` (geo.go:35). -/
def Bearing (lat1 lon1 lat2 lon2 : F) : F :=
  let lat1r := Radians lat1
  let lat2r := Radians lat2
  let dlon := Radians (lon2 - lon1)
  let y := GoMath.Sin dlon * GoMath.Cos lat2r
  let x := GoMath.Cos lat1r * GoMath.Sin lat2r
    - GoMath.Sin lat1r * GoMath.Cos lat2r * GoMath.Cos dlon
  Degrees (GoMath.Atan2 y x)

/-- `HaversineDistance` (geo.go:44). -/
def HaversineDistance (lat1 lon1 lat2 lon2 : F) : F :=
  let d_lat := Radians (lat1 - lat2)
  let d_lon := Radians (lon1 - lon2)
  let lat1 := Radians lat1
  let lat2 := Radians lat2
  let a := GoMath.Sin (d_lat / 2) * GoMath.Sin (d_lat / 2)
    + GoMath.Sin (d_lon / 2) * GoMath.Sin (d_lon / 2) * GoMath.Cos lat1 * GoMath.Cos lat2
  let c := 2 * GoMath.Atan2 (GoMath.Sqrt a) (GoMath.Sqrt (1 - a))
  let d := EARTH_RADIUS * c
  d

/-- `Distance` (geo.go:57). -/
def Distance (lat1 lon1 ele1 lat2 lon2 ele2 : F) (threeD haversine : Bool) : F :=
  if haversine = true ∨ (|lat1 - lat2| > 0.2 ∨ |lon1 - lon2| > 0.2) then
    HaversineDistance lat1 lon1 lat2 lon2
  else
    let coef := GoMath.Cos (Radians lat1)
    let x := lat1 - lat2
    let y := (lon1 - lon2) * coef
    let distance2d := GoMath.Sqrt (x * x + y * y) * ONE_DEGREE
    if threeD = false ∨ ele1 = ele2 then
      distance2d
    else
      GoMath.Sqrt (GoMath.Pow distance2d 2 + GoMath.Pow (ele1 - ele2) 2)

/-- `(l *Location) Distance2d` (geo.go:116). -/
def Location.Distance2d (l l2 : Location F) : F :=
  Distance l.Latitude l.Longitude 0.0 l2.Latitude l2.Longitude 0.0 false false

/-- `(l *Location) Distance3d` (geo.go:120). -/
def Location.Distance3d (l l2 : Location F) : F :=
  Distance l.Latitude l.Longitude l.Elevation l2.Latitude l2.Longitude l2.Elevation true false

/-- `ElevationAngle` (geo.go:75). -/
def ElevationAngle (l1 l2 : Location F) (radians : Bool) : F :=
  if l1.Elevation - l2.Elevation < 0.00001 then
    0.0
  else
    let b := l2.Elevation - l1.Elevation
    let a := l2.Distance2d l1
    if a < 0.00001 then
      0.0
    else
      let angle := GoMath.Atan (b / a)
      if radians = true then
        angle
      else
        Degrees angle

/-- `(ld *LocationDelta) Move` (geo.go:100): the waypoint `wp` after the call. -/
def LocationDelta.Move (ld : LocationDelta F) (wp : Wpt F) : Wpt F :=
  let l := ld.Distance / 6371.0 / 1000.0
  let p_lat := Radians wp.Lat
  let p_lon := Radians wp.Lon
  let bearing := Radians ld.Angle
  let lat := GoMath.Asin
    (GoMath.Sin p_lat * GoMath.Cos l + GoMath.Cos p_lat * GoMath.Sin l * GoMath.Cos bearing)
  let lon := p_lon + GoMath.Atan2 (GoMath.Sin bearing * GoMath.Sin l * GoMath.Cos p_lat)
    (GoMath.Cos l - GoMath.Sin p_lat * GoMath.Sin lat)
  let wp := { wp with Lat := Degrees lat }
  let wp := { wp with Lon := Degrees lon }
  wp

/-- `(wp *Wpt) Length2D` (gpx.go:613). -/
def Wpt.Length2D (wp wp2 : Wpt F) : F :=
  Distance wp.Lat wp.Lon 0.0 wp2.Lat wp2.Lon 0.0 false false

/-- `(wp *Wpt) Length3D` (gpx.go:617). -/
def Wpt.Length3D (wp wp2 : Wpt F) : F :=
  Distance wp.Lat wp.Lon wp.Ele wp2.Lat wp2.Lon wp2.Ele true false

/-- `(wp *Wpt) Move` (gpx.go:657): the waypoint `wp` after the call. -/
def Wpt.Move (wp : Wpt F) (ld : LocationDelta F) : Wpt F :=
  ld.Move wp

/-- `(wp *Wpt) DistanceAngle` (gpx.go:661). -/
def Wpt.DistanceAngle (wp wp2 : Wpt F) : LocationDelta F :=
  { Angle := Bearing wp.Lat wp.Lon wp2.Lat wp2.Lon
    Distance := gpxgo.Distance wp.Lat wp.Lon 0 wp2.Lat wp2.Lon 0 false false }

end Geodesy

/-- The interpretation of the `math` functions in exact real arithmetic.
`Atan2 y x` is the argument of `x + y i`, in `(-π, π]`, and `0` at the origin;
`Pow` is the real power function. -/
noncomputable instance instGoMathReal : GoMath ℝ where
  Pi := Real.pi
  Sqrt := Real.sqrt
  Sin := Real.sin
  Cos := Real.cos
  Asin := Real.arcsin
  Atan := Real.arctan
  Atan2 := fun y x => Complex.arg ⟨x, y⟩
  Pow := fun x y => x ^ y


/-! ## Lengths (gpx.go:304-318, 372-386, 410-424, 494-508) -/

section Lengths

variable {F : Type} [LinearOrderedField F] [GoMath F]

/-- The loop `for i := 1; i < len(ws); i++ { length += ws[i].m(&ws[i-1]) }` of
the four `Length2D` / `Length3D` methods on waypoint sequences.  The state is
the index `i` and the running `length`; the first argument bounds the number of
iterations, and `len(ws)` of them are enough. -/
def lengthLoop (m : Wpt F → Wpt F → F) (ws : Waypoints F) : Nat → Nat → F → F
  | 0, _, length => length
  | fuel + 1, i, length =>
    if h : i < ws.length then
      lengthLoop m ws fuel (i + 1)
        (length + m (ws.get ⟨i, h⟩) (ws.get ⟨i - 1, Nat.lt_of_le_of_lt (Nat.sub_le i 1) h⟩))
    else
      length

/-- `(r *Rte) Length2D` (gpx.go:372). -/
def Rte.Length2D (r : Rte F) : F :=
  lengthLoop Wpt.Length2D r.Waypoints r.Waypoints.length 1 0

/-- `(r *Rte) Length3D` (gpx.go:380). -/
def Rte.Length3D (r : Rte F) : F :=
  lengthLoop Wpt.Length3D r.Waypoints r.Waypoints.length 1 0

/-- `(ts *Trkseg) Length2D` (gpx.go:494). -/
def Trkseg.Length2D (ts : Trkseg F) : F :=
  lengthLoop Wpt.Length2D ts.Waypoints ts.Waypoints.length 1 0

/-- `(ts *Trkseg) Length3D` (gpx.go:502). -/
def Trkseg.Length3D (ts : Trkseg F) : F :=
  lengthLoop Wpt.Length3D ts.Waypoints ts.Waypoints.length 1 0

/-- `(t *Trk) Length2D` (gpx.go:410). -/
def Trk.Length2D (t : Trk F) : F :=
  t.Segments.foldl (fun length2d seg => length2d + seg.Length2D) 0

/-- `(t *Trk) Length3D` (gpx.go:418). -/
def Trk.Length3D (t : Trk F) : F :=
  t.Segments.foldl (fun length3d seg => length3d + seg.Length3D) 0

/-- `(g *Gpx) Length2D` (gpx.go:304). -/
def Gpx.Length2D (g : Gpx F) : F :=
  g.Tracks.foldl (fun length2d trk => length2d + trk.Length2D) 0

/-- `(g *Gpx) Length3D` (gpx.go:312). -/
def Gpx.Length3D (g : Gpx F) : F :=
  g.Tracks.foldl (fun length3d trk => length3d + trk.Length3D) 0

end Lengths

/-! ## Ascent and descent (gpx.go:320-331, 432-443, 514-534) -/

section Uphill

variable {F : Type} [LinearOrderedField F]

/-- `(ts *Trkseg) UphillDownhill` (gpx.go:514): the body is the single statement
`return 0.0, 0.0`; what follows it in the source is commented out. -/
def Trkseg.UphillDownhill (_ts : Trkseg F) : F × F :=
  (0.0, 0.0)

/-- `(t *Trk) UphillDownhill` (gpx.go:432). -/
def Trk.UphillDownhill (t : Trk F) : F × F :=
  t.Segments.foldl
    (fun (acc : F × F) seg =>
      let ud := seg.UphillDownhill
      (acc.1 + ud.1, acc.2 + ud.2)) (0, 0)

/-- `(g *Gpx) UphillDownhill` (gpx.go:320). -/
def Gpx.UphillDownhill (g : Gpx F) : F × F :=
  g.Tracks.foldl
    (fun (acc : F × F) trk =>
      let ud := trk.UphillDownhill
      (acc.1 + ud.1, acc.2 + ud.2)) (0, 0)

end Uphill

/-! ## Entry points of the decoder (gpx.go:148-182)

`xml.Unmarshal`, the `Decode` method of an `xml.Decoder` and `os.Open` belong to
libraries outside the package.  They are parameters here: a decoding call takes
the input and the document its second argument points to, and gives the
document after the call and the error it returns (`none` is `nil`). -/

section Parse

variable {F : Type} [LinearOrderedField F]

/-- `ParseWithContent` (gpx.go:148): the returned pointer (`none` is `nil`) and
the returned error. -/
def ParseWithContent {Content E : Type} (Unmarshal : Content → Gpx F → Gpx F × Option E)
    (content : Content) : Option (Gpx F) × Option E :=
  let gpx : Gpx F := NewGpx
  let r := Unmarshal content gpx
  let gpx := r.1
  let err := r.2
  match err with
  | some e => (none, some e)
  | none => (some gpx, none)

/-- `ParseWithReader` (gpx.go:157); `Decode o` is the `Decode` method of the
decoder that `xml.NewDecoder(o)` returns, with its `CharsetReader` set. -/
def ParseWithReader {Reader E : Type} (Decode : Reader → Gpx F → Gpx F × Option E)
    (o : Reader) : Option (Gpx F) × Option E :=
  let gpx : Gpx F := NewGpx
  let r := Decode o gpx
  let gpx := r.1
  let err := r.2
  match err with
  | some e => (none, some e)
  | none => (some gpx, none)

/-- `ParseWithPath` (gpx.go:174); `Open` is `os.Open`. -/
def ParseWithPath {Reader E : Type} (Open : String → Except E Reader)
    (Decode : Reader → Gpx F → Gpx F × Option E) (path : String) :
    Option (Gpx F) × Option E :=
  match Open path with
  | .error err => (none, some err)
  | .ok file => ParseWithReader Decode file

end Parse

/-! ## `Distance` on machine numbers (geo.go:27-73)

In the definitions above the arithmetic of `float64` is the exact arithmetic of
an ordered field.  Which branch `Distance` takes depends on the difference the
machine computes and on the `float64` the constant `.2` denotes, so here the
arithmetic operations, the comparisons and the conversion of constants are
parameters as well.  For IEEE-754 binary64, `Add`, `Sub`, `Mul`, `Div` round the
exact result to the nearest `float64`, `Const q` is the `float64` nearest to the
constant `q` (Go evaluates constant expressions exactly and rounds once), `Lt`
is `<` and `Eq` is `==`.  Every operation of the source is applied, and rounded,
on its own, as on amd64; a compiler that fuses a product and a sum into one
rounding is not described. -/

/-- The `float64` operations that `Radians`, `HaversineDistance` and `Distance`
apply, other than the functions of `math` in `GoMath`. -/
structure Float64Ops (F : Type) where
  Add : F → F → F
  Sub : F → F → F
  Mul : F → F → F
  Div : F → F → F
  Abs : F → F
  Lt : F → F → Bool
  Eq : F → F → Bool
  Const : ℚ → F

section Machine

variable {F : Type} [GoMath F]

/-- `Radians` (geo.go:27) on machine numbers. -/
def Float64Ops.Radians (ops : Float64Ops F) (degrees : F) : F :=
  ops.Div (ops.Mul degrees GoMath.Pi) (ops.Const 180)

/-- `HaversineDistance` (geo.go:44) on machine numbers. -/
def Float64Ops.HaversineDistance (ops : Float64Ops F) (lat1 lon1 lat2 lon2 : F) : F :=
  let d_lat := ops.Radians (ops.Sub lat1 lat2)
  let d_lon := ops.Radians (ops.Sub lon1 lon2)
  let lat1 := ops.Radians lat1
  let lat2 := ops.Radians lat2
  let a := ops.Add
    (ops.Mul (GoMath.Sin (ops.Div d_lat (ops.Const 2))) (GoMath.Sin (ops.Div d_lat (ops.Const 2))))
    (ops.Mul
      (ops.Mul
        (ops.Mul (GoMath.Sin (ops.Div d_lon (ops.Const 2)))
          (GoMath.Sin (ops.Div d_lon (ops.Const 2))))
        (GoMath.Cos lat1))
      (GoMath.Cos lat2))
  let c := ops.Mul (ops.Const 2)
    (GoMath.Atan2 (GoMath.Sqrt a) (GoMath.Sqrt (ops.Sub (ops.Const 1) a)))
  let d := ops.Mul (ops.Const (6371 * 1000)) c
  d

/-- `Distance` (geo.go:57) on machine numbers; `a > .2` is `.2 < a`. -/
def Float64Ops.Distance (ops : Float64Ops F) (lat1 lon1 ele1 lat2 lon2 ele2 : F)
    (threeD haversine : Bool) : F :=
  if haversine = true ∨ (ops.Lt (ops.Const 0.2) (ops.Abs (ops.Sub lat1 lat2)) = true
      ∨ ops.Lt (ops.Const 0.2) (ops.Abs (ops.Sub lon1 lon2)) = true) then
    ops.HaversineDistance lat1 lon1 lat2 lon2
  else
    let coef := GoMath.Cos (ops.Radians lat1)
    let x := ops.Sub lat1 lat2
    let y := ops.Mul (ops.Sub lon1 lon2) coef
    let distance2d := ops.Mul (GoMath.Sqrt (ops.Add (ops.Mul x x) (ops.Mul y y)))
      (ops.Const (1000 * 10000.8 / 90))
    if threeD = false ∨ ops.Eq ele1 ele2 = true then
      distance2d
    else
      GoMath.Sqrt (ops.Add (GoMath.Pow distance2d (ops.Const 2))
        (GoMath.Pow (ops.Sub ele1 ele2) (ops.Const 2)))

end Machine

/-- The operations of exact arithmetic in an ordered field. -/
def exactOps (F : Type) [LinearOrderedField F] : Float64Ops F where
  Add := fun a b => a + b
  Sub := fun a b => a - b
  Mul := fun a b => a * b
  Div := fun a b => a / b
  Abs := fun a => |a|
  Lt := fun a b => decide (a < b)
  Eq := fun a b => decide (a = b)
  Const := fun q => (q : F)

section Rounding

variable {F : Type} [LinearOrderedField F] [FloorRing F]

/-- The integer nearest to `q`, the even one of the two when `q` is half-way. -/
def roundHalfEven (q : F) : ℤ :=
  if q - ⌊q⌋ < 1 / 2 then ⌊q⌋
  else if 1 / 2 < q - ⌊q⌋ then ⌊q⌋ + 1
  else if ⌊q⌋ % 2 = 0 then ⌊q⌋
  else ⌊q⌋ + 1

/-- The `float64` nearest to `q` (round to nearest, ties to even): 53
significant bits, the lowest of weight `2 ^ (e - 52)` where
`2 ^ e ≤ |q| < 2 ^ (e + 1)`.  It is the IEEE-754 result for `q` whose magnitude
is in the normal range of `float64` (no overflow, no subnormal result). -/
def round64 (q : F) : F :=
  if q = 0 then 0
  else (roundHalfEven (q / 2 ^ (Int.log 2 |q| - 52)) : F) * 2 ^ (Int.log 2 |q| - 52)

end Rounding

/-- The operations of IEEE-754 binary64 on finite numbers, with a `float64`
given by the number it stands for: each arithmetic operation rounds its exact
result, `Const q` is the constant `q` rounded, and the comparisons are those of
the numbers.  It covers the operations whose operands and results are finite
and normal (or zero); infinities and NaN are not represented.  Over `ℚ` every
operation is computable. -/
def float64Ops (F : Type) [LinearOrderedField F] [FloorRing F] : Float64Ops F where
  Add := fun a b => round64 (a + b)
  Sub := fun a b => round64 (a - b)
  Mul := fun a b => round64 (a * b)
  Div := fun a b => round64 (a / b)
  Abs := fun a => |a|
  Lt := fun a b => decide (a < b)
  Eq := fun a b => decide (a = b)
  Const := fun q => round64 (q : F)

/-! ## Wire mapping: the `xml` struct tags (gpx.go:15-139)

The tags are copied from the struct declarations.  In `encoding/xml` a tag is
a name followed by comma-separated flags; a field whose tag carries the flag
`attr` is an attribute of the element, and every other field is a child
element. -/

/-- A struct field and the text of its `xml` tag. -/
structure TaggedField where
  Field : String
  Tag : String
deriving DecidableEq

/-- The tagged fields of `Bounds` (gpx.go:49-52). -/
def BoundsTags : List TaggedField :=
  [⟨"MinLat", "minlat,omitempty"⟩, ⟨"MinLon", "minlon,omitempty"⟩,
   ⟨"MaxLat", "maxlat,omitempty"⟩, ⟨"MaxLon", "maxlon,omitempty"⟩]

/-- The tagged fields of `Email` (gpx.go:24-25). -/
def EmailTags : List TaggedField :=
  [⟨"Id", "id,attr"⟩, ⟨"Domain", "domain,attr"⟩]

/-- The tagged fields of `Link` (gpx.go:30-32). -/
def LinkTags : List TaggedField :=
  [⟨"Href", "href,attr"⟩, ⟨"Text", "text,omitempty"⟩, ⟨"Type", "type,omitempty"⟩]

/-- The tagged fields of `Copyright` (gpx.go:42-44). -/
def CopyrightTags : List TaggedField :=
  [⟨"Author", "author,attr"⟩, ⟨"Year", "year,omitempty"⟩, ⟨"License", "license,omitempty"⟩]

/-- The tagged fields of `Wpt` (gpx.go:71-92). -/
def WptTags : List TaggedField :=
  [⟨"Lat", "lat,attr"⟩, ⟨"Lon", "lon,attr"⟩, ⟨"Ele", "ele,omitempty"⟩,
   ⟨"Time", "time,omitempty"⟩, ⟨"Magvar", "magvar,omitempty"⟩,
   ⟨"Geoidheight", "geoidheight,omitempty"⟩, ⟨"Name", "name,omitempty"⟩,
   ⟨"Cmt", "cmt,omitempty"⟩, ⟨"Desc", "desc,omitempty"⟩, ⟨"Src", "src,omitempty"⟩,
   ⟨"Link", "link,omitempty"⟩, ⟨"Sym", "sym,omitempty"⟩, ⟨"Type", "type,omitempty"⟩,
   ⟨"Fix", "fix,omitempty"⟩, ⟨"Sat", "sat,omitempty"⟩, ⟨"Hdop", "hdop,omitempty"⟩,
   ⟨"Vdop", "vdop,omitempty"⟩, ⟨"Pdop", "pdop,omitempty"⟩,
   ⟨"Ageofdgpsdata", "ageofdgpsdata,omitempty"⟩, ⟨"Dgpsid", "dgpsid,omitempty"⟩,
   ⟨"Extensions", "extensions,omitempty"⟩]

/-- The parts of a tag between its commas. -/
def splitComma : List Char → List (List Char)
  | [] => [[]]
  | c :: cs =>
    if c = ',' then
      [] :: splitComma cs
    else
      match splitComma cs with
      | [] => [[c]]
      | part :: parts => (c :: part) :: parts

/-- The name a tag gives to the attribute or element. -/
def tagName (tag : String) : String :=
  String.mk ((splitComma tag.data).headD [])

/-- The flags of a tag. -/
def tagFlags (tag : String) : List String :=
  (splitComma tag.data).tail.map String.mk

/-- Whether the field is an attribute of its element. -/
def TaggedField.isAttr (f : TaggedField) : Bool :=
  (tagFlags f.Tag).contains "attr"

/-- The names of the attributes of an element of a struct type. -/
def attrNames (fields : List TaggedField) : List String :=
  (fields.filter fun f => f.isAttr).map fun f => tagName f.Tag

/-- The names of the child elements of an element of a struct type. -/
def childNames (fields : List TaggedField) : List String :=
  (fields.filter fun f => !f.isAttr).map fun f => tagName f.Tag

/-! ## Storage of the slices of a document

`Gpx.Clone` above gives the value of the clone.  To follow what the clone and
its source share, the slices `Waypoints`, `Routes`, `Tracks`, `Segments` are
here slice headers into a memory of backing arrays.  The other references (the
`Link` slices and the pointers) are kept by value, so this model shows only the
sharing that goes through the four slices named. -/

/-- A slice header: the backing array (`none` for a `nil` slice) and the length. -/
structure Slice where
  array : Option Nat := none
  len : Nat := 0
deriving DecidableEq

/-- The struct `Rte` in memory. -/
structure MRte where
  XMLName : XmlName := {}
  Name : String := ""
  Cmt : String := ""
  Desc : String := ""
  Src : String := ""
  Link : List Link := []
  Number : Nat := 0
  Type_ : String := ""
  Extensions : String := ""
  Waypoints : Slice := {}
deriving DecidableEq

/-- The struct `Trkseg` in memory. -/
structure MTrkseg where
  XMLName : XmlName := {}
  Waypoints : Slice := {}
  Extensions : Option Extensions := none
deriving DecidableEq

/-- The struct `Trk` in memory. -/
structure MTrk where
  XMLName : XmlName := {}
  Name : String := ""
  Cmt : String := ""
  Desc : String := ""
  Src : String := ""
  Link : List Link := []
  Number : Nat := 0
  Type_ : String := ""
  Extensions : String := ""
  Segments : Slice := {}
deriving DecidableEq

/-- The struct `Gpx` in memory. -/
structure MGpx (F : Type) [Zero F] where
  XMLName : XmlName := {}
  XMLNs : String := ""
  XMLNsXsi : String := ""
  XMLSchemaLoc : String := ""
  Version : String := ""
  Creator : String := ""
  Metadata : Option (Metadata F) := none
  Waypoints : Slice := {}
  Routes : Slice := {}
  Tracks : Slice := {}
  Extensions : String := ""
deriving DecidableEq

/-- The backing arrays, by element type; an array is named by its position. -/
structure Memory (F : Type) [Zero F] where
  wpts : List (List (Wpt F)) := []
  rtes : List (List MRte) := []
  segs : List (List MTrkseg) := []
  trks : List (List MTrk) := []
deriving DecidableEq

section Storage

variable {F : Type} [LinearOrderedField F]

/-- The elements a slice header denotes. -/
def Slice.elems {α : Type} (arrays : List (List α)) (s : Slice) : List α :=
  match s.array with
  | none => []
  | some a => (arrays.getD a []).take s.len

/-- The assignment `s[i] = v`: the arrays after it. -/
def Slice.assign {α : Type} (arrays : List (List α)) (s : Slice) (i : Nat) (v : α) :
    List (List α) :=
  match s.array with
  | none => arrays
  | some a => arrays.set a ((arrays.getD a []).set i v)

/-- The built-in `make([]T, n)`: a fresh array of `n` zero values and its slice. -/
def goMake {α : Type} (arrays : List (List α)) (zero : α) (n : Nat) : List (List α) × Slice :=
  (arrays ++ [List.replicate n zero], { array := some arrays.length, len := n })

/-- The built-in `copy(dst, src)` on slice headers: the arrays after it. -/
def copySlice {α : Type} (arrays : List (List α)) (dst src : Slice) : List (List α) :=
  match dst.array with
  | none => arrays
  | some d =>
    arrays.set d (goCopy ((arrays.getD d []).take dst.len) (src.elems arrays)
      ++ (arrays.getD d []).drop dst.len)

/-- `(g *Gpx) Clone` (gpx.go:231) on the memory: the memory after the call and
the struct the returned pointer points to.  The `Metadata` block is the one of
`Gpx.Clone`. -/
def MGpx.Clone (m : Memory F) (g : MGpx F) : Memory F × MGpx F :=
  let newgpx : MGpx F := {}
  let newgpx := { newgpx with XMLNs := g.XMLNs }
  let newgpx := { newgpx with XMLNsXsi := g.XMLNsXsi }
  let newgpx := { newgpx with XMLSchemaLoc := g.XMLSchemaLoc }
  let newgpx := { newgpx with Version := g.Version }
  let newgpx := { newgpx with Creator := g.Creator }
  let newgpx := { newgpx with Metadata := (Gpx.Clone { Metadata := g.Metadata }).Metadata }
  let w := goMake m.wpts {} g.Waypoints.len
  let m := { m with wpts := w.1 }
  let newgpx := { newgpx with Waypoints := w.2 }
  let r := goMake m.rtes {} g.Routes.len
  let m := { m with rtes := r.1 }
  let newgpx := { newgpx with Routes := r.2 }
  let t := goMake m.trks {} g.Tracks.len
  let m := { m with trks := t.1 }
  let newgpx := { newgpx with Tracks := t.2 }
  let m := { m with wpts := copySlice m.wpts newgpx.Waypoints g.Waypoints }
  let m := { m with rtes := copySlice m.rtes newgpx.Routes g.Routes }
  let m := { m with trks := copySlice m.trks newgpx.Tracks g.Tracks }
  (m, newgpx)

/-- The assignment `g.Tracks[i].Segments[j].Waypoints[k].Ele = v`: the memory
after it. -/
def MGpx.setTrackPointEle (m : Memory F) (g : MGpx F) (i j k : Nat) (v : F) :
    Except GoPanic (Memory F) := do
  let trk ← index (g.Tracks.elems m.trks) i
  let seg ← index (trk.Segments.elems m.segs) j
  let wp ← index (seg.Waypoints.elems m.wpts) k
  pure { m with wpts := seg.Waypoints.assign m.wpts k { wp with Ele := v } }

/-- The assignment `g.Waypoints[k].Ele = v`: the memory after it. -/
def MGpx.setWaypointEle (m : Memory F) (g : MGpx F) (k : Nat) (v : F) :
    Except GoPanic (Memory F) := do
  let wp ← index (g.Waypoints.elems m.wpts) k
  pure { m with wpts := g.Waypoints.assign m.wpts k { wp with Ele := v } }

/-- The value of a track segment held in memory. -/
def Memory.loadTrkseg (m : Memory F) (s : MTrkseg) : Trkseg F :=
  { XMLName := s.XMLName
    Waypoints := s.Waypoints.elems m.wpts
    Extensions := s.Extensions }

/-- The value of a track held in memory. -/
def Memory.loadTrk (m : Memory F) (t : MTrk) : Trk F :=
  { XMLName := t.XMLName
    Name := t.Name
    Cmt := t.Cmt
    Desc := t.Desc
    Src := t.Src
    Link := t.Link
    Number := t.Number
    Type_ := t.Type_
    Extensions := t.Extensions
    Segments := (t.Segments.elems m.segs).map m.loadTrkseg }

/-- The value of a route held in memory. -/
def Memory.loadRte (m : Memory F) (r : MRte) : Rte F :=
  { XMLName := r.XMLName
    Name := r.Name
    Cmt := r.Cmt
    Desc := r.Desc
    Src := r.Src
    Link := r.Link
    Number := r.Number
    Type_ := r.Type_
    Extensions := r.Extensions
    Waypoints := r.Waypoints.elems m.wpts }

/-- The value of a document held in memory. -/
def Memory.load (m : Memory F) (g : MGpx F) : Gpx F :=
  { XMLName := g.XMLName
    XMLNs := g.XMLNs
    XMLNsXsi := g.XMLNsXsi
    XMLSchemaLoc := g.XMLSchemaLoc
    Version := g.Version
    Creator := g.Creator
    Metadata := g.Metadata
    Waypoints := g.Waypoints.elems m.wpts
    Routes := (g.Routes.elems m.rtes).map m.loadRte
    Tracks := (g.Tracks.elems m.trks).map m.loadTrk
    Extensions := g.Extensions }

end Storage

/-! ## Specification predicates -/

section Predicates

variable {F : Type} [LinearOrderedField F]

/-- The box `b` is the accumulator obtained from the waypoints satisfying `S`:
it contains them, each side is either still the seed of `minBounds` or the
coordinate of one of them, and no side has passed its seed. -/
def BoxOf (b : gpxgo.Bounds F) (S : Wpt F → Prop) : Prop :=
  (∀ w, S w → b.MinLat ≤ w.Lat ∧ w.Lat ≤ b.MaxLat ∧ b.MinLon ≤ w.Lon ∧ w.Lon ≤ b.MaxLon)
    ∧ (b.MinLat = MaxFloat64 ∨ ∃ w, S w ∧ w.Lat = b.MinLat)
    ∧ (b.MaxLat = -MaxFloat64 ∨ ∃ w, S w ∧ w.Lat = b.MaxLat)
    ∧ (b.MinLon = MaxFloat64 ∨ ∃ w, S w ∧ w.Lon = b.MinLon)
    ∧ (b.MaxLon = -MaxFloat64 ∨ ∃ w, S w ∧ w.Lon = b.MaxLon)
    ∧ b.MinLat ≤ MaxFloat64 ∧ -MaxFloat64 ≤ b.MaxLat
    ∧ b.MinLon ≤ MaxFloat64 ∧ -MaxFloat64 ≤ b.MaxLon

/-- Follows the spec: the sum over `i = 1..n-1` of the distance between `w[i]`
and `w[i-1]`, the 2D distance when `threeD` is unset and the 3D distance with
the waypoints' `Ele` when it is set.  Both indices are below `n` in every term. -/
def specLength [GoMath F] (threeD : Bool) (w : List (Wpt F)) : F :=
  Finset.sum (Finset.Ico 1 w.length) fun i =>
    Distance (w.getD i {}).Lat (w.getD i {}).Lon (if threeD then (w.getD i {}).Ele else 0)
      (w.getD (i - 1) {}).Lat (w.getD (i - 1) {}).Lon
      (if threeD then (w.getD (i - 1) {}).Ele else 0) threeD false

/-- Follows the spec: the consecutive elevation deltas `Ele[i] - Ele[i-1]` of a
segment. -/
def specDeltas (ts : Trkseg F) : List F :=
  List.zipWith (fun cur prev => cur.Ele - prev.Ele) ts.Waypoints.tail ts.Waypoints

/-- Follows the spec: the sum of the positive and the sum of the negative
consecutive elevation deltas within each segment, summed across all segments of
all tracks. -/
def specUphillDownhill (g : Gpx F) : F × F :=
  let deltas := g.Tracks.flatMap fun trk => trk.Segments.flatMap specDeltas
  ((deltas.filter fun d => 0 < d).sum, (deltas.filter fun d => d < 0).sum)

/-- The document with the `Time` of every track waypoint blanked: two documents
with the same image agree everywhere except in those fields. -/
def Gpx.blankTrackTime (g : Gpx F) : Gpx F :=
  { g with Tracks := g.Tracks.map fun trk =>
      { trk with Segments := trk.Segments.map fun seg =>
          { seg with Waypoints := seg.Waypoints.map fun wp => { wp with Time := "" } } } }

/-- The document with the `Ele` of every track waypoint reset: two documents
with the same image agree everywhere except in those fields. -/
def Gpx.blankTrackEle (g : Gpx F) : Gpx F :=
  { g with Tracks := g.Tracks.map fun trk =>
      { trk with Segments := trk.Segments.map fun seg =>
          { seg with Waypoints := seg.Waypoints.map fun wp => { wp with Ele := 0 } } } }

end Predicates

/-! ## Concrete documents used below -/

section Inputs

variable {F : Type} [LinearOrderedField F]

/-- A document with one track, one segment and one timed point at elevation 1233. -/
def docOnePoint : Gpx F :=
  { (NewGpx : Gpx F) with
    Tracks := [{ Segments := [{ Waypoints :=
      [{ Lat := 32.1234, Lon := 121.1233, Ele := 1233, Time := "2009-10-17T18:37:26Z" }] }] }] }

/-- A segment whose elevations are all negative: -50, -30, -70. -/
def segBelowSea : Trkseg F :=
  { Waypoints := [{ Ele := -50 }, { Ele := -30 }, { Ele := -70 }] }

/-- The segment of the decoding scenario: three points at elevations 4.46, 4.94, 6.87. -/
def segScenario : Trkseg F :=
  { Waypoints :=
      [{ Lat := 47.644548, Lon := -122.326897, Ele := 4.46 },
       { Lat := 47.644548, Lon := -122.326897, Ele := 4.94 },
       { Lat := 47.644548, Lon := -122.326897, Ele := 6.87 }] }

/-- The document of the decoding scenario: one track holding `segScenario`. -/
def docScenario : Gpx F :=
  { (NewGpx : Gpx F) with Tracks := [{ Name := "Example GPX Document", Segments := [segScenario] }] }

/-- A fresh document whose top-level `Extensions` text is set. -/
def docWithExtensions : Gpx F :=
  { (NewGpx : Gpx F) with Extensions := "<note/>" }

/-- A document holding a single track that has no segment. -/
def docEmptyTrack : Gpx F :=
  { (NewGpx : Gpx F) with Tracks := [{}] }

/-- A location at sea level. -/
def locLow : Location F :=
  { Latitude := 0, Longitude := 0, Elevation := 0 }

/-- A location a tenth of a degree further north and 100 m higher than `locLow`. -/
def locHigh : Location F :=
  { Latitude := 0.1, Longitude := 0, Elevation := 100 }

/-- The first waypoint of `TestMoveWpt`. -/
def wptTestA : Wpt F :=
  { Lat := 32.11111, Lon := 121.22222 }

/-- The second waypoint of `TestMoveWpt`. -/
def wptTestB : Wpt F :=
  { Lat := 33.33333, Lon := 123.33333 }

/-- The waypoint at latitude 0, longitude 0. -/
def wptOrigin : Wpt F :=
  { Lat := 0, Lon := 0 }

/-- The waypoint a tenth of a degree north of `wptOrigin`. -/
def wptNear : Wpt F :=
  { Lat := 0.1, Lon := 0 }

/-- A document with one track and one segment of elevations 10, 15, 12. -/
def docHill : Gpx F :=
  { (NewGpx : Gpx F) with
    Tracks := [{ Segments := [{ Waypoints := [{ Ele := 10 }, { Ele := 15 }, { Ele := 12 }] }] }] }

/-- A document with a route, a top-level waypoint, metadata and one track of two
timed points. -/
def docFull : Gpx F :=
  { (NewGpx : Gpx F) with
    Metadata := some { Name := "full", Time := "2008-02-26T19:49:13" }
    Waypoints := [{ Lat := 1, Lon := 2, Ele := 3, Time := "w" }]
    Routes := [{ Name := "r", Waypoints := [{ Lat := 4, Lon := 5, Ele := 6, Time := "r0" }] }]
    Tracks := [{ Name := "t", Segments := [{ Waypoints :=
      [{ Lat := 7, Lon := 8, Ele := 9, Time := "t0", Name := "a" },
       { Lat := 7.1, Lon := 8.1, Ele := 10, Time := "t1", Name := "b" }] }] }] }

/-- A memory holding a document with one top-level waypoint and one track of one
segment of one point. -/
def memSmall : Memory F :=
  { wpts := [[{ Lat := 1, Lon := 2, Ele := 3 }], [{ Lat := 32, Lon := 121, Ele := 1233 }]]
    segs := [[{ Waypoints := { array := some 1, len := 1 } }]]
    trks := [[{ Segments := { array := some 0, len := 1 } }]] }

/-- The document held in `memSmall`. -/
def gpxSmall : MGpx F :=
  { XMLNs := "http://www.topografix.com/GPX/1/1"
    XMLNsXsi := "http://www.w3.org/2001/XMLSchema-instance"
    XMLSchemaLoc := "http://www.topografix.com/GPX/1/1 http://www.topografix.com/GPX/1/1/gpx.xsd"
    Version := "1.1"
    Creator := "https://github.com/pikeszfish/gpxgo"
    Waypoints := { array := some 0, len := 1 }
    Tracks := { array := some 0, len := 1 } }

/-- The value of the document held in `memSmall`. -/
def docSmall : Gpx F :=
  { (NewGpx : Gpx F) with
    Waypoints := [{ Lat := 1, Lon := 2, Ele := 3 }]
    Tracks := [{ Segments := [{ Waypoints := [{ Lat := 32, Lon := 121, Ele := 1233 }] }] }] }

/-- The value `docSmall` with the elevation of its track point set to 5. -/
def docSmallRaised : Gpx F :=
  { (NewGpx : Gpx F) with
    Waypoints := [{ Lat := 1, Lon := 2, Ele := 3 }]
    Tracks := [{ Segments := [{ Waypoints := [{ Lat := 32, Lon := 121, Ele := 5 }] }] }] }

/-- A `math` package given by a table: `Pi` is the `float64` nearest to π, and
`Sin` and `Cos` return the `float64` nearest to the sine and to the cosine at the
arguments that `HaversineDistance` passes them for the positions (2.5, -90) and
(-2.5, 90).  It shows that the values assumed of the package there can be met
together; every other value is 0. -/
def mathTable : GoMath ℚ where
  Pi := 884279719003555 / 281474976710656
  Sqrt := fun _ => 0
  Sin := fun x =>
    if x = 6288211335136391 / 144115188075855872 then 6286216213909009 / 144115188075855872
    else if x = -884279719003555 / 562949953421312 then -1
    else 0
  Cos := fun x =>
    if x = 6288211335136391 / 144115188075855872 ∨ x = -6288211335136391 / 144115188075855872 then
      8998626396882423 / 9007199254740992
    else 0
  Asin := fun _ => 0
  Atan := fun _ => 0
  Atan2 := fun _ _ => 0
  Pow := fun _ _ => 0

end Inputs

/-! ## Theorems -/

section AggregationFacts

variable {F : Type} [LinearOrderedField F]

theorem rangeCall_fst {σ α : Type} (owner : σ) (xs : List α) (m : α → α) :
    (rangeCall owner xs m).1 = owner := by
  unfold rangeCall
  suffices h : ∀ (st : σ × Option α), (xs.foldl (fun st x => (st.1, some (m x))) st).1 = st.1 from
    h (owner, none)
  induction xs with
  | nil => intro st; rfl
  | cons x xs ih => intro st; simpa using ih (st.1, some (m x))

/-- `Gpx.RemoveElevation` returns the document it was given. -/
theorem Gpx_RemoveElevation_eq (g : Gpx F) : g.RemoveElevation = g :=
  rangeCall_fst g g.Tracks Trk.RemoveElevation

/-- `Gpx.RemoveTime` returns the document it was given. -/
theorem Gpx_RemoveTime_eq (g : Gpx F) : g.RemoveTime = g :=
  rangeCall_fst g g.Tracks Trk.RemoveTime

end AggregationFacts

/-- C1 (code defect): on a document with one track point of elevation 1233 and
a time stamp, `RemoveElevation` and `RemoveTime` leave the document as it was:
the point still has elevation 1233 and its time stamp, where the claim says
`Ele = 0` and `Time = ""`. -/
theorem RemoveElevation_RemoveTime_keep_values :
    (docOnePoint : Gpx ℚ).RemoveElevation = docOnePoint
      ∧ (docOnePoint : Gpx ℚ).RemoveTime = docOnePoint
      ∧ (docOnePoint : Gpx ℚ).RemoveElevation.Tracks.map
          (fun t => t.Segments.map (fun s => s.Waypoints.map (fun wp => wp.Ele))) = [[[1233]]]
      ∧ (docOnePoint : Gpx ℚ).RemoveTime.Tracks.map
          (fun t => t.Segments.map (fun s => s.Waypoints.map (fun wp => wp.Time)))
          = [[["2009-10-17T18:37:26Z"]]] :=
  ⟨rfl, rfl, rfl, rfl⟩

/-- C2 (code defect): `Trkseg.ElevationExtremes` starts both extremes at zero, so
the elevations (-50, -30, -70) give (-70, 0) instead of (-70, -30), and the
elevations (4.46, 4.94, 6.87) give (0, 6.87) instead of (4.46, 6.87), at the
segment, the track and the document level. -/
theorem ElevationExtremes_zero_seeded :
    (segBelowSea : Trkseg ℚ).ElevationExtremes = (-70, 0)
      ∧ (segScenario : Trkseg ℚ).ElevationExtremes = (0, 6.87)
      ∧ Trk.ElevationExtremes ({ Segments := [segBelowSea] } : Trk ℚ) = .ok (-70, 0)
      ∧ (docScenario : Gpx ℚ).ElevationExtremes = .ok (0, 6.87) := by
  refine ⟨?_, ?_, ?_, ?_⟩
  · norm_num [segBelowSea, Trkseg.ElevationExtremes, extremesStep]
  · norm_num [segScenario, Trkseg.ElevationExtremes, extremesStep]
  · norm_num [segBelowSea, Trk.ElevationExtremes, Trkseg.ElevationExtremes, extremesStep,
      index, bind, Except.bind, pure, Except.pure]
  · norm_num [docScenario, segScenario, NewGpx, Gpx.ElevationExtremes, Trk.ElevationExtremes,
      Trkseg.ElevationExtremes, extremesStep, index, bind, Except.bind, pure, Except.pure]

/-- C3 (code defect): `Clone` never assigns the top-level `Extensions`: the clone
of a document whose `Extensions` is `"<note/>"` has `Extensions = ""`, so it
differs from its source in a serialized field. -/
theorem Clone_drops_Extensions :
    (docWithExtensions : Gpx ℚ).Extensions = "<note/>"
      ∧ (docWithExtensions : Gpx ℚ).Clone.Extensions = ""
      ∧ (docWithExtensions : Gpx ℚ).Clone ≠ docWithExtensions := by
  refine ⟨rfl, rfl, ?_⟩
  intro h
  have h2 : (docWithExtensions : Gpx ℚ).Clone.Extensions = (docWithExtensions : Gpx ℚ).Extensions :=
    congrArg Gpx.Extensions h
  exact absurd h2 (by decide)

/-- C6 (code defect): `Gpx.ElevationExtremes` on a document without tracks, and
`Trk.ElevationExtremes` on a track without segments, evaluate `elevations[0]`
on an empty slice and panic with an index out of range; a document holding
such a track panics too. -/
theorem ElevationExtremes_panics_on_empty :
    (NewGpx : Gpx ℚ).ElevationExtremes = .error .indexOutOfRange
      ∧ Trk.ElevationExtremes ({} : Trk ℚ) = .error .indexOutOfRange
      ∧ (docEmptyTrack : Gpx ℚ).ElevationExtremes = .error .indexOutOfRange :=
  ⟨rfl, rfl, rfl⟩

section BoundsFacts

variable {F : Type} [LinearOrderedField F]

theorem MaxFloat64_pos : (0 : F) < MaxFloat64 := by
  unfold MaxFloat64
  have h : (2 : F) ^ 971 < 2 ^ 1024 := pow_lt_pow_right₀ (by norm_num) (by norm_num)
  linarith

theorem BoxOf_minBounds : BoxOf (minBounds : gpxgo.Bounds F) (fun _ => False) := by
  have h := MaxFloat64_pos (F := F)
  refine ⟨fun w hw => hw.elim, Or.inl rfl, Or.inl rfl, Or.inl rfl, Or.inl rfl, ?_, ?_, ?_, ?_⟩ <;>
    simp [minBounds]

theorem BoxOf_congr {b : gpxgo.Bounds F} {S T : Wpt F → Prop} (hST : ∀ w, S w ↔ T w)
    (h : BoxOf b S) : BoxOf b T := by
  have hfun : S = T := funext fun w => propext (hST w)
  exact hfun ▸ h

theorem min_attained {a c M : F} {S T : Wpt F → Prop} {f : Wpt F → F}
    (ha : a = M ∨ ∃ w, S w ∧ f w = a) (hc : c = M ∨ ∃ w, T w ∧ f w = c) :
    min a c = M ∨ ∃ w, (S w ∨ T w) ∧ f w = min a c := by
  rcases min_choice a c with h | h <;> rw [h]
  · rcases ha with ha | ⟨w, hw, hv⟩
    · exact Or.inl ha
    · exact Or.inr ⟨w, Or.inl hw, hv⟩
  · rcases hc with hc | ⟨w, hw, hv⟩
    · exact Or.inl hc
    · exact Or.inr ⟨w, Or.inr hw, hv⟩

theorem max_attained {a c M : F} {S T : Wpt F → Prop} {f : Wpt F → F}
    (ha : a = M ∨ ∃ w, S w ∧ f w = a) (hc : c = M ∨ ∃ w, T w ∧ f w = c) :
    max a c = M ∨ ∃ w, (S w ∨ T w) ∧ f w = max a c := by
  rcases max_choice a c with h | h <;> rw [h]
  · rcases ha with ha | ⟨w, hw, hv⟩
    · exact Or.inl ha
    · exact Or.inr ⟨w, Or.inl hw, hv⟩
  · rcases hc with hc | ⟨w, hw, hv⟩
    · exact Or.inl hc
    · exact Or.inr ⟨w, Or.inr hw, hv⟩

theorem BoxOf_merge {b b2 : gpxgo.Bounds F} {S T : Wpt F → Prop}
    (h1 : BoxOf b S) (h2 : BoxOf b2 T) : BoxOf (b.merge b2) (fun w => S w ∨ T w) := by
  obtain ⟨c1, a1, a2, a3, a4, s1, s2, s3, s4⟩ := h1
  obtain ⟨c2, e1, e2, e3, e4, t1, t2, t3, t4⟩ := h2
  refine ⟨?_, min_attained a1 e1, max_attained a2 e2, min_attained a3 e3, max_attained a4 e4,
    ?_, ?_, ?_, ?_⟩
  · intro w hw
    show min b.MinLat b2.MinLat ≤ w.Lat ∧ w.Lat ≤ max b.MaxLat b2.MaxLat
      ∧ min b.MinLon b2.MinLon ≤ w.Lon ∧ w.Lon ≤ max b.MaxLon b2.MaxLon
    rcases hw with hw | hw
    · obtain ⟨p1, p2, p3, p4⟩ := c1 w hw
      exact ⟨min_le_of_left_le p1, le_max_of_le_left p2, min_le_of_left_le p3,
        le_max_of_le_left p4⟩
    · obtain ⟨p1, p2, p3, p4⟩ := c2 w hw
      exact ⟨min_le_of_right_le p1, le_max_of_le_right p2, min_le_of_right_le p3,
        le_max_of_le_right p4⟩
  · exact min_le_of_left_le s1
  · exact le_max_of_le_left s2
  · exact min_le_of_left_le s3
  · exact le_max_of_le_left s4

/-- The box that the loop of `Trkseg.Bounds` writes into `b2` for the point `wp`. -/
theorem BoxOf_point (b2 : gpxgo.Bounds F) (wp : Wpt F)
    (hlat : |wp.Lat| ≤ MaxFloat64) (hlon : |wp.Lon| ≤ MaxFloat64) :
    BoxOf { b2 with MaxLat := wp.Lat, MaxLon := wp.Lon, MinLat := wp.Lat, MinLon := wp.Lon }
      (fun w => w = wp) := by
  rw [abs_le] at hlat hlon
  refine ⟨?_, Or.inr ⟨wp, rfl, rfl⟩, Or.inr ⟨wp, rfl, rfl⟩, Or.inr ⟨wp, rfl, rfl⟩,
    Or.inr ⟨wp, rfl, rfl⟩, hlat.2, hlat.1, hlon.2, hlon.1⟩
  intro w hw
  subst hw
  exact ⟨le_refl _, le_refl _, le_refl _, le_refl _⟩

theorem BoxOf_boundsLoop (ws : List (Wpt F)) :
    ∀ (st : gpxgo.Bounds F × gpxgo.Bounds F) (S : Wpt F → Prop), BoxOf st.1 S →
      (∀ wp ∈ ws, |wp.Lat| ≤ MaxFloat64 ∧ |wp.Lon| ≤ MaxFloat64) →
      BoxOf (ws.foldl Trkseg.boundsStep st).1 (fun w => S w ∨ w ∈ ws) := by
  induction ws with
  | nil =>
    intro st S h _
    exact BoxOf_congr (fun w => by simp) h
  | cons wp ws ih =>
    intro st S h hfin
    have hwp := hfin wp (List.mem_cons_self wp ws)
    have hstep : BoxOf (Trkseg.boundsStep st wp).1 (fun w => S w ∨ w = wp) :=
      BoxOf_merge h (BoxOf_point st.2 wp hwp.1 hwp.2)
    have hrest := ih (Trkseg.boundsStep st wp) _ hstep
      (fun w hw => hfin w (List.mem_cons_of_mem wp hw))
    rw [List.foldl_cons]
    refine BoxOf_congr (fun w => ?_) hrest
    simp only [List.mem_cons]
    tauto

theorem BoxOf_Trkseg (ts : Trkseg F)
    (hfin : ∀ wp ∈ ts.Waypoints, |wp.Lat| ≤ MaxFloat64 ∧ |wp.Lon| ≤ MaxFloat64) :
    BoxOf ts.Bounds (fun w => w ∈ ts.Waypoints) :=
  BoxOf_congr (fun w => by simp)
    (BoxOf_boundsLoop ts.Waypoints (minBounds, minBounds) _ BoxOf_minBounds hfin)

theorem BoxOf_segLoop (segs : List (Trkseg F)) :
    ∀ (b : gpxgo.Bounds F) (S : Wpt F → Prop), BoxOf b S →
      (∀ seg ∈ segs, ∀ wp ∈ seg.Waypoints, |wp.Lat| ≤ MaxFloat64 ∧ |wp.Lon| ≤ MaxFloat64) →
      BoxOf (segs.foldl (fun b seg => b.merge seg.Bounds) b)
        (fun w => S w ∨ ∃ seg ∈ segs, w ∈ seg.Waypoints) := by
  induction segs with
  | nil =>
    intro b S h _
    exact BoxOf_congr (fun w => by simp) h
  | cons seg segs ih =>
    intro b S h hfin
    have hstep := BoxOf_merge h (BoxOf_Trkseg seg (hfin seg (List.mem_cons_self seg segs)))
    have hrest := ih _ _ hstep (fun s hs => hfin s (List.mem_cons_of_mem seg hs))
    rw [List.foldl_cons]
    refine BoxOf_congr (fun w => ?_) hrest
    simp only [List.mem_cons, exists_eq_or_imp]
    tauto

theorem BoxOf_Trk (t : Trk F)
    (hfin : ∀ seg ∈ t.Segments, ∀ wp ∈ seg.Waypoints,
      |wp.Lat| ≤ MaxFloat64 ∧ |wp.Lon| ≤ MaxFloat64) :
    BoxOf t.Bounds (fun w => ∃ seg ∈ t.Segments, w ∈ seg.Waypoints) :=
  BoxOf_congr (fun w => by simp)
    (BoxOf_segLoop t.Segments minBounds _ BoxOf_minBounds hfin)

theorem BoxOf_trkLoop (trks : List (Trk F)) :
    ∀ (b : gpxgo.Bounds F) (S : Wpt F → Prop), BoxOf b S →
      (∀ trk ∈ trks, ∀ seg ∈ trk.Segments, ∀ wp ∈ seg.Waypoints,
        |wp.Lat| ≤ MaxFloat64 ∧ |wp.Lon| ≤ MaxFloat64) →
      BoxOf (trks.foldl (fun b trk => b.merge trk.Bounds) b)
        (fun w => S w ∨ ∃ trk ∈ trks, ∃ seg ∈ trk.Segments, w ∈ seg.Waypoints) := by
  induction trks with
  | nil =>
    intro b S h _
    exact BoxOf_congr (fun w => by simp) h
  | cons trk trks ih =>
    intro b S h hfin
    have hstep := BoxOf_merge h (BoxOf_Trk trk (hfin trk (List.mem_cons_self trk trks)))
    have hrest := ih _ _ hstep (fun t ht => hfin t (List.mem_cons_of_mem trk ht))
    rw [List.foldl_cons]
    refine BoxOf_congr (fun w => ?_) hrest
    simp only [List.mem_cons, exists_eq_or_imp, or_assoc]

theorem BoxOf_Gpx (g : Gpx F)
    (hfin : ∀ trk ∈ g.Tracks, ∀ seg ∈ trk.Segments, ∀ wp ∈ seg.Waypoints,
      |wp.Lat| ≤ MaxFloat64 ∧ |wp.Lon| ≤ MaxFloat64) :
    BoxOf g.Bounds (fun w => ∃ trk ∈ g.Tracks, ∃ seg ∈ trk.Segments, w ∈ seg.Waypoints) :=
  BoxOf_congr (fun w => by simp)
    (BoxOf_trkLoop g.Tracks minBounds _ BoxOf_minBounds hfin)

/-- A side of the box that is still at its seed is attained as soon as a point
with an admissible coordinate lies in the box. -/
theorem seed_attained {S : Wpt F → Prop} {f : Wpt F → F} {m : F} {w0 : Wpt F}
    (hw0 : S w0) (hle : m ≤ f w0) (hfin : f w0 ≤ MaxFloat64)
    (h : m = MaxFloat64 ∨ ∃ w, S w ∧ f w = m) : ∃ w, S w ∧ f w = m := by
  rcases h with h | h
  · exact ⟨w0, hw0, le_antisymm (h ▸ hfin) hle⟩
  · exact h

theorem seed_attained_neg {S : Wpt F → Prop} {f : Wpt F → F} {m : F} {w0 : Wpt F}
    (hw0 : S w0) (hle : f w0 ≤ m) (hfin : -MaxFloat64 ≤ f w0)
    (h : m = -MaxFloat64 ∨ ∃ w, S w ∧ f w = m) : ∃ w, S w ∧ f w = m := by
  rcases h with h | h
  · exact ⟨w0, hw0, le_antisymm hle (h ▸ hfin)⟩
  · exact h

end BoundsFacts

/-- C5: for a document whose track waypoints have coordinates in the range of
`float64` and whose tracks hold at least one waypoint, `Gpx.Bounds` returns a
box that contains every track waypoint and each of whose four sides is the
coordinate of some track waypoint. -/
theorem Gpx_Bounds_contains_and_tight {F : Type} [LinearOrderedField F] (g : Gpx F)
    (hfin : ∀ trk ∈ g.Tracks, ∀ seg ∈ trk.Segments, ∀ wp ∈ seg.Waypoints,
      |wp.Lat| ≤ MaxFloat64 ∧ |wp.Lon| ≤ MaxFloat64)
    (hne : ∃ trk ∈ g.Tracks, ∃ seg ∈ trk.Segments, ∃ wp, wp ∈ seg.Waypoints) :
    (∀ trk ∈ g.Tracks, ∀ seg ∈ trk.Segments, ∀ wp ∈ seg.Waypoints,
        g.Bounds.MinLat ≤ wp.Lat ∧ wp.Lat ≤ g.Bounds.MaxLat
          ∧ g.Bounds.MinLon ≤ wp.Lon ∧ wp.Lon ≤ g.Bounds.MaxLon)
      ∧ (∃ trk ∈ g.Tracks, ∃ seg ∈ trk.Segments, ∃ wp ∈ seg.Waypoints, wp.Lat = g.Bounds.MinLat)
      ∧ (∃ trk ∈ g.Tracks, ∃ seg ∈ trk.Segments, ∃ wp ∈ seg.Waypoints, wp.Lat = g.Bounds.MaxLat)
      ∧ (∃ trk ∈ g.Tracks, ∃ seg ∈ trk.Segments, ∃ wp ∈ seg.Waypoints, wp.Lon = g.Bounds.MinLon)
      ∧ (∃ trk ∈ g.Tracks, ∃ seg ∈ trk.Segments, ∃ wp ∈ seg.Waypoints, wp.Lon = g.Bounds.MaxLon) := by
  obtain ⟨hc, a1, a2, a3, a4, -⟩ := BoxOf_Gpx g hfin
  obtain ⟨trk0, htrk0, seg0, hseg0, w0, hw0⟩ := hne
  have hS : ∃ trk ∈ g.Tracks, ∃ seg ∈ trk.Segments, w0 ∈ seg.Waypoints :=
    ⟨trk0, htrk0, seg0, hseg0, hw0⟩
  obtain ⟨p1, p2, p3, p4⟩ := hc w0 hS
  obtain ⟨f1, f2⟩ := hfin trk0 htrk0 seg0 hseg0 w0 hw0
  rw [abs_le] at f1 f2
  have unpack : ∀ {f : Wpt F → F} {m : F},
      (∃ w, (∃ trk ∈ g.Tracks, ∃ seg ∈ trk.Segments, w ∈ seg.Waypoints) ∧ f w = m) →
      ∃ trk ∈ g.Tracks, ∃ seg ∈ trk.Segments, ∃ wp ∈ seg.Waypoints, f wp = m := by
    rintro f m ⟨w, ⟨trk, htrk, seg, hseg, hw⟩, hv⟩
    exact ⟨trk, htrk, seg, hseg, w, hw, hv⟩
  refine ⟨fun trk htrk seg hseg wp hwp => hc wp ⟨trk, htrk, seg, hseg, hwp⟩, ?_, ?_, ?_, ?_⟩
  · exact unpack (seed_attained (f := fun w => w.Lat) hS p1 f1.2 a1)
  · exact unpack (seed_attained_neg (f := fun w => w.Lat) hS p2 f1.1 a2)
  · exact unpack (seed_attained (f := fun w => w.Lon) hS p3 f2.2 a3)
  · exact unpack (seed_attained_neg (f := fun w => w.Lon) hS p4 f2.1 a4)

/-- Witness for C5: the document with the single track point (32.1234, 121.1233)
has `MinLat = MaxLat = 32.1234` and `MinLon = MaxLon = 121.1233`. -/
theorem Gpx_Bounds_contains_and_tight_witness :
    (docOnePoint : Gpx ℚ).Bounds.MinLat = 32.1234
      ∧ (docOnePoint : Gpx ℚ).Bounds.MaxLat = 32.1234
      ∧ (docOnePoint : Gpx ℚ).Bounds.MinLon = 121.1233
      ∧ (docOnePoint : Gpx ℚ).Bounds.MaxLon = 121.1233 := by
  have h := Gpx_Bounds_contains_and_tight (docOnePoint : Gpx ℚ)
    (by
      intro trk htrk seg hseg wp hwp
      simp only [docOnePoint, List.mem_singleton] at htrk
      subst htrk
      simp only [List.mem_singleton] at hseg
      subst hseg
      simp only [List.mem_singleton] at hwp
      subst hwp
      norm_num [abs_le, MaxFloat64])
    ⟨_, List.mem_singleton_self _, _, List.mem_singleton_self _, _, List.mem_singleton_self _⟩
  have only : ∀ {f : Wpt ℚ → ℚ} {m : ℚ},
      (∃ trk ∈ (docOnePoint : Gpx ℚ).Tracks, ∃ seg ∈ trk.Segments, ∃ wp ∈ seg.Waypoints,
        f wp = m) →
      m = f { Lat := 32.1234, Lon := 121.1233, Ele := 1233, Time := "2009-10-17T18:37:26Z" } := by
    rintro f m ⟨trk, htrk, seg, hseg, wp, hwp, hv⟩
    simp only [docOnePoint, List.mem_singleton] at htrk
    subst htrk
    simp only [List.mem_singleton] at hseg
    subst hseg
    simp only [List.mem_singleton] at hwp
    subst hwp
    exact hv.symm
  exact ⟨only h.2.1, only h.2.2.1, only h.2.2.2.1, only h.2.2.2.2⟩

section GeodesyFacts

@[simp] theorem GoMath_Pi_real : (GoMath.Pi : ℝ) = Real.pi := rfl

@[simp] theorem GoMath_Sqrt_real (x : ℝ) : GoMath.Sqrt x = Real.sqrt x := rfl

@[simp] theorem GoMath_Sin_real (x : ℝ) : GoMath.Sin x = Real.sin x := rfl

@[simp] theorem GoMath_Cos_real (x : ℝ) : GoMath.Cos x = Real.cos x := rfl

@[simp] theorem GoMath_Asin_real (x : ℝ) : GoMath.Asin x = Real.arcsin x := rfl

@[simp] theorem GoMath_Atan_real (x : ℝ) : GoMath.Atan x = Real.arctan x := rfl

@[simp] theorem GoMath_Atan2_real (y x : ℝ) : GoMath.Atan2 y x = Complex.arg ⟨x, y⟩ := rfl

@[simp] theorem GoMath_Pow_two_real (x : ℝ) : GoMath.Pow x 2 = x ^ 2 :=
  Real.rpow_two x

theorem ONE_DEGREE_pos {F : Type} [LinearOrderedField F] : (0 : F) < ONE_DEGREE := by
  unfold ONE_DEGREE
  norm_num

/-- The guard of `Distance` fails exactly in the planar case. -/
theorem not_haversine_guard {F : Type} [LinearOrderedField F] {lat1 lon1 lat2 lon2 : F} {h : Bool}
    (hh : h = false) (h1 : |lat1 - lat2| ≤ 0.2) (h2 : |lon1 - lon2| ≤ 0.2) :
    ¬(h = true ∨ (|lat1 - lat2| > 0.2 ∨ |lon1 - lon2| > 0.2)) := by
  rintro (h' | h' | h')
  · rw [hh] at h'
    exact Bool.noConfusion h'
  · exact absurd h' (not_lt.mpr h1)
  · exact absurd h' (not_lt.mpr h2)

end GeodesyFacts

section MachineFacts

variable {F : Type} [LinearOrderedField F] [GoMath F]

theorem exactOps_Radians (d : F) : (exactOps F).Radians d = Radians d := by
  simp only [Float64Ops.Radians, exactOps, Radians]
  norm_num

theorem exactOps_HaversineDistance (lat1 lon1 lat2 lon2 : F) :
    (exactOps F).HaversineDistance lat1 lon1 lat2 lon2 = HaversineDistance lat1 lon1 lat2 lon2 := by
  simp only [Float64Ops.HaversineDistance, exactOps_Radians, HaversineDistance, EARTH_RADIUS]
  simp only [exactOps]
  norm_num

/-- With the operations of exact arithmetic, `Distance` on machine numbers is
the `Distance` of the ordered field. -/
theorem exactOps_Distance (lat1 lon1 ele1 lat2 lon2 ele2 : F) (threeD h : Bool) :
    (exactOps F).Distance lat1 lon1 ele1 lat2 lon2 ele2 threeD h
      = Distance lat1 lon1 ele1 lat2 lon2 ele2 threeD h := by
  simp only [Float64Ops.Distance, exactOps_Radians, exactOps_HaversineDistance, Distance,
    ONE_DEGREE]
  simp only [exactOps, decide_eq_true_eq]
  norm_num

end MachineFacts

section RoundingFacts

variable {F : Type} [LinearOrderedField F] [FloorRing F]

/-- An integer closer than one half to `x` is the value of `roundHalfEven x`. -/
theorem roundHalfEven_of_near (x : F) (n : ℤ) (h : |x - n| < 1 / 2) : roundHalfEven x = n := by
  rw [abs_lt] at h
  obtain ⟨h1, h2⟩ := h
  rcases le_or_lt (n : F) x with hx | hx
  · have hf : ⌊x⌋ = n := by
      rw [Int.floor_eq_iff]
      constructor
      · exact hx
      · linarith
    unfold roundHalfEven
    rw [hf, if_pos h2]
  · have hf : ⌊x⌋ = n - 1 := by
      rw [Int.floor_eq_iff]
      push_cast
      constructor
      · linarith
      · linarith
    unfold roundHalfEven
    rw [hf]
    push_cast
    rw [if_neg (by linarith), if_pos (by linarith)]
    ring

/-- The value of `round64 q` from the binade of `q` and the nearest multiple of
the unit in the last place. -/
theorem round64_of_near (q : F) (e n : ℤ) (h1 : (2 : F) ^ e ≤ |q|) (h2 : |q| < (2 : F) ^ (e + 1))
    (hn : |q / 2 ^ (e - 52) - n| < 1 / 2) : round64 q = (n : F) * 2 ^ (e - 52) := by
  have hpos : (0 : F) < |q| := lt_of_lt_of_le (zpow_pos (by norm_num) e) h1
  have hq : q ≠ 0 := abs_pos.mp hpos
  have hlog : Int.log 2 |q| = e := by
    apply le_antisymm
    · have := (Int.lt_zpow_iff_log_lt (by norm_num : 1 < 2) hpos).mp (by exact_mod_cast h2)
      omega
    · exact (Int.zpow_le_iff_le_log (by norm_num : 1 < 2) hpos).mp (by exact_mod_cast h1)
  unfold round64
  rw [if_neg hq, hlog, roundHalfEven_of_near _ n hn]

end RoundingFacts


section ThresholdFacts

variable {F : Type} [LinearOrderedField F] [FloorRing F]

theorem round64_zero : round64 (0 : F) = 0 := by
  simp [round64]

/-- The `float64` of the constant `0.8`. -/
theorem round64_08 : round64 ((0.8 : ℚ) : F) = 7205759403792794 * 2 ^ (-53 : ℤ) := by
  have h := round64_of_near ((0.8 : ℚ) : F) (-1) 7205759403792794
    (by push_cast; norm_num [abs_of_pos]) (by push_cast; norm_num [abs_of_pos])
    (by push_cast; norm_num [abs_lt])
  rw [h]
  norm_num

/-- The `float64` of the constant `0.6`. -/
theorem round64_06 : round64 ((0.6 : ℚ) : F) = 5404319552844595 * 2 ^ (-53 : ℤ) := by
  have h := round64_of_near ((0.6 : ℚ) : F) (-1) 5404319552844595
    (by push_cast; norm_num [abs_of_pos]) (by push_cast; norm_num [abs_of_pos])
    (by push_cast; norm_num [abs_lt])
  rw [h]
  norm_num

/-- The `float64` of the constant `.2`. -/
theorem round64_02 : round64 ((0.2 : ℚ) : F) = 7205759403792794 * 2 ^ (-55 : ℤ) := by
  have h := round64_of_near ((0.2 : ℚ) : F) (-3) 7205759403792794
    (by push_cast; norm_num [abs_of_pos]) (by push_cast; norm_num [abs_of_pos])
    (by push_cast; norm_num [abs_lt])
  rw [h]
  norm_num

/-- The `float64` of `.2` is a `float64`: rounding leaves it as it is. -/
theorem round64_02_fixed :
    round64 ((7205759403792794 : F) * 2 ^ (-55 : ℤ) - 0) = 7205759403792794 * 2 ^ (-55 : ℤ) := by
  have h := round64_of_near ((7205759403792794 : F) * 2 ^ (-55 : ℤ) - 0) (-3) 7205759403792794
    (by norm_num [abs_of_pos]) (by norm_num [abs_of_pos]) (by norm_num [abs_lt])
  rw [h]
  norm_num

/-- The difference of the `float64` values of `0.8` and `0.6` is computed without
rounding error, and it is two units in the last place above the `float64` of
`.2`. -/
theorem round64_08_sub_06 :
    round64 ((7205759403792794 : F) * 2 ^ (-53 : ℤ) - 5404319552844595 * 2 ^ (-53 : ℤ))
      = 7205759403792796 * 2 ^ (-55 : ℤ) := by
  have h := round64_of_near
    ((7205759403792794 : F) * 2 ^ (-53 : ℤ) - 5404319552844595 * 2 ^ (-53 : ℤ)) (-3)
    7205759403792796
    (by norm_num [abs_of_pos]) (by norm_num [abs_of_pos]) (by norm_num [abs_lt])
  rw [h]
  norm_num

/-- On `float64`, `math.Abs(0.8 - 0.6) > .2` holds. -/
theorem float64_guard_08_06 :
    (float64Ops F).Lt ((float64Ops F).Const 0.2)
      ((float64Ops F).Abs ((float64Ops F).Sub ((float64Ops F).Const 0.8)
        ((float64Ops F).Const 0.6))) = true := by
  simp only [float64Ops, round64_08, round64_06, round64_02, round64_08_sub_06,
    decide_eq_true_eq]
  norm_num [abs_of_pos]

/-- On `float64`, `math.Abs(0.2 - 0) > .2` does not hold. -/
theorem float64_guard_02_0 :
    (float64Ops F).Lt ((float64Ops F).Const 0.2)
      ((float64Ops F).Abs ((float64Ops F).Sub ((float64Ops F).Const 0.2) 0)) = false := by
  simp only [float64Ops, round64_02, round64_02_fixed, decide_eq_false_iff_not]
  norm_num [abs_of_pos]

/-- On `float64`, `math.Abs(0 - 0) > .2` does not hold. -/
theorem float64_guard_0_0 :
    (float64Ops F).Lt ((float64Ops F).Const 0.2)
      ((float64Ops F).Abs ((float64Ops F).Sub 0 0)) = false := by
  simp only [float64Ops, round64_02, sub_zero, round64_zero, abs_zero, decide_eq_false_iff_not]
  norm_num

/-- On `float64`, `math.Abs(0.2 - 0)` is the constant `.2`. -/
theorem float64_delta_02_0 :
    (float64Ops F).Abs ((float64Ops F).Sub ((float64Ops F).Const 0.2) 0)
      = (float64Ops F).Const 0.2 := by
  simp only [float64Ops, round64_02, round64_02_fixed]
  norm_num [abs_of_pos]

theorem float64_Lt_irrefl (x : F) : (float64Ops F).Lt x x = false := by
  simp [float64Ops]

end ThresholdFacts

/-- In exact arithmetic `|0.8 - 0.6| > 0.2` does not hold. -/
theorem exact_guard_08_06 {F : Type} [LinearOrderedField F] :
    (exactOps F).Lt ((exactOps F).Const 0.2)
      ((exactOps F).Abs ((exactOps F).Sub ((exactOps F).Const 0.8)
        ((exactOps F).Const 0.6))) = false := by
  simp only [exactOps, decide_eq_false_iff_not]
  push_cast
  norm_num [abs_of_pos]

/-- C10: `Distance` returns `HaversineDistance` of the two positions whenever the
haversine flag is set or `math.Abs(lat1-lat2) > .2` or `math.Abs(lon1-lon2) > .2`,
the differences, the constant `.2` and the comparison being those of the machine;
otherwise (flag unset and neither comparison true, as when a computed delta is
exactly the constant `.2`) its 2D value is
`sqrt(x*x + y*y) * ONE_DEGREE` with `x = lat1-lat2`,
`y = (lon1-lon2)*cos(radians(lat1))` and `ONE_DEGREE = 1000*10000.8/90 = 111120`.
It holds for every interpretation of the machine operations. -/
theorem Distance_dispatch {F : Type} [GoMath F] (ops : Float64Ops F)
    (lat1 lon1 ele1 lat2 lon2 ele2 : F) (threeD h : Bool) :
    ((h = true ∨ ops.Lt (ops.Const 0.2) (ops.Abs (ops.Sub lat1 lat2)) = true
          ∨ ops.Lt (ops.Const 0.2) (ops.Abs (ops.Sub lon1 lon2)) = true) →
        ops.Distance lat1 lon1 ele1 lat2 lon2 ele2 threeD h
          = ops.HaversineDistance lat1 lon1 lat2 lon2)
      ∧ ((h = false ∧ ops.Lt (ops.Const 0.2) (ops.Abs (ops.Sub lat1 lat2)) = false
          ∧ ops.Lt (ops.Const 0.2) (ops.Abs (ops.Sub lon1 lon2)) = false) →
        ops.Distance lat1 lon1 ele1 lat2 lon2 ele2 false h
          = ops.Mul
              (GoMath.Sqrt (ops.Add (ops.Mul (ops.Sub lat1 lat2) (ops.Sub lat1 lat2))
                (ops.Mul (ops.Mul (ops.Sub lon1 lon2) (GoMath.Cos (ops.Radians lat1)))
                  (ops.Mul (ops.Sub lon1 lon2) (GoMath.Cos (ops.Radians lat1))))))
              (ops.Const (1000 * 10000.8 / 90)))
      ∧ (((∀ x : F, ops.Lt x x = false) ∧ h = false
          ∧ ops.Abs (ops.Sub lat1 lat2) = ops.Const 0.2
          ∧ ops.Abs (ops.Sub lon1 lon2) = ops.Const 0.2) →
        ops.Distance lat1 lon1 ele1 lat2 lon2 ele2 false h
          = ops.Mul
              (GoMath.Sqrt (ops.Add (ops.Mul (ops.Sub lat1 lat2) (ops.Sub lat1 lat2))
                (ops.Mul (ops.Mul (ops.Sub lon1 lon2) (GoMath.Cos (ops.Radians lat1)))
                  (ops.Mul (ops.Sub lon1 lon2) (GoMath.Cos (ops.Radians lat1))))))
              (ops.Const (1000 * 10000.8 / 90)))
      ∧ (1000 * 10000.8 / 90 : ℚ) = 111120 := by
  have planar : h = false → ops.Lt (ops.Const 0.2) (ops.Abs (ops.Sub lat1 lat2)) = false →
      ops.Lt (ops.Const 0.2) (ops.Abs (ops.Sub lon1 lon2)) = false →
      ops.Distance lat1 lon1 ele1 lat2 lon2 ele2 false h
        = ops.Mul
            (GoMath.Sqrt (ops.Add (ops.Mul (ops.Sub lat1 lat2) (ops.Sub lat1 lat2))
              (ops.Mul (ops.Mul (ops.Sub lon1 lon2) (GoMath.Cos (ops.Radians lat1)))
                (ops.Mul (ops.Sub lon1 lon2) (GoMath.Cos (ops.Radians lat1))))))
            (ops.Const (1000 * 10000.8 / 90)) := by
    intro hh h1 h2
    unfold Float64Ops.Distance
    rw [if_neg (by simp [hh, h1, h2])]
    simp only [true_or, if_true]
  refine ⟨fun hc => ?_, fun hc => planar hc.1 hc.2.1 hc.2.2, fun hc => ?_, by norm_num⟩
  · unfold Float64Ops.Distance
    rw [if_pos hc]
  · obtain ⟨hirr, hh, h1, h2⟩ := hc
    exact planar hh (by rw [h1]; exact hirr _) (by rw [h2]; exact hirr _)

/-- Witness for C10, on `float64`: the latitudes `0.8` and `0.6`, whose computed
difference is above the `float64` of `.2`, select the haversine formula; a
latitude delta equal to the `float64` of `.2` with equal longitudes selects the
planar formula, and so do two deltas both equal to the `float64` of `.2`. -/
theorem Distance_dispatch_witness :
    (float64Ops ℝ).Distance ((float64Ops ℝ).Const 0.8) 0 0 ((float64Ops ℝ).Const 0.6) 0 0
          false false
        = (float64Ops ℝ).HaversineDistance ((float64Ops ℝ).Const 0.8) 0
            ((float64Ops ℝ).Const 0.6) 0
      ∧ (float64Ops ℝ).Distance ((float64Ops ℝ).Const 0.2) 0 5 0 0 0 false false
        = (float64Ops ℝ).Mul
            (Real.sqrt ((float64Ops ℝ).Add
              ((float64Ops ℝ).Mul ((float64Ops ℝ).Sub ((float64Ops ℝ).Const 0.2) 0)
                ((float64Ops ℝ).Sub ((float64Ops ℝ).Const 0.2) 0))
              ((float64Ops ℝ).Mul
                ((float64Ops ℝ).Mul ((float64Ops ℝ).Sub 0 0)
                  (Real.cos ((float64Ops ℝ).Radians ((float64Ops ℝ).Const 0.2))))
                ((float64Ops ℝ).Mul ((float64Ops ℝ).Sub 0 0)
                  (Real.cos ((float64Ops ℝ).Radians ((float64Ops ℝ).Const 0.2)))))))
            ((float64Ops ℝ).Const 111120)
      ∧ (float64Ops ℝ).Distance ((float64Ops ℝ).Const 0.2) ((float64Ops ℝ).Const 0.2) 5 0 0 0
          false false
        = (float64Ops ℝ).Mul
            (Real.sqrt ((float64Ops ℝ).Add
              ((float64Ops ℝ).Mul ((float64Ops ℝ).Sub ((float64Ops ℝ).Const 0.2) 0)
                ((float64Ops ℝ).Sub ((float64Ops ℝ).Const 0.2) 0))
              ((float64Ops ℝ).Mul
                ((float64Ops ℝ).Mul ((float64Ops ℝ).Sub ((float64Ops ℝ).Const 0.2) 0)
                  (Real.cos ((float64Ops ℝ).Radians ((float64Ops ℝ).Const 0.2))))
                ((float64Ops ℝ).Mul ((float64Ops ℝ).Sub ((float64Ops ℝ).Const 0.2) 0)
                  (Real.cos ((float64Ops ℝ).Radians ((float64Ops ℝ).Const 0.2)))))))
            ((float64Ops ℝ).Const 111120) :=
  ⟨(Distance_dispatch (float64Ops ℝ) ((float64Ops ℝ).Const 0.8) 0 0 ((float64Ops ℝ).Const 0.6)
      0 0 false false).1 (Or.inr (Or.inl float64_guard_08_06)),
    (by
      have h := (Distance_dispatch (float64Ops ℝ) ((float64Ops ℝ).Const 0.2) 0 5 0 0 0
        false false).2.1 ⟨rfl, float64_guard_02_0, float64_guard_0_0⟩
      rw [h]
      norm_num),
    (by
      have h := (Distance_dispatch (float64Ops ℝ) ((float64Ops ℝ).Const 0.2)
        ((float64Ops ℝ).Const 0.2) 5 0 0 0 false false).2.2.1
        ⟨float64_Lt_irrefl, rfl, float64_delta_02_0, float64_delta_02_0⟩
      rw [h]
      norm_num)⟩

section DistanceFacts

variable {F : Type} [LinearOrderedField F] [GoMath F]

theorem Distance_of_guard {lat1 lon1 lat2 lon2 : F} {h : Bool} (ele1 ele2 : F) (threeD : Bool)
    (hc : h = true ∨ (|lat1 - lat2| > 0.2 ∨ |lon1 - lon2| > 0.2)) :
    Distance lat1 lon1 ele1 lat2 lon2 ele2 threeD h = HaversineDistance lat1 lon1 lat2 lon2 := by
  unfold Distance
  rw [if_pos hc]

theorem Distance_planar_2d {lat1 lon1 lat2 lon2 : F} {h : Bool} (ele1 ele2 : F) (threeD : Bool)
    (hc : ¬(h = true ∨ (|lat1 - lat2| > 0.2 ∨ |lon1 - lon2| > 0.2)))
    (h2 : threeD = false ∨ ele1 = ele2) :
    Distance lat1 lon1 ele1 lat2 lon2 ele2 threeD h
      = GoMath.Sqrt ((lat1 - lat2) * (lat1 - lat2)
          + (lon1 - lon2) * GoMath.Cos (Radians lat1) * ((lon1 - lon2) * GoMath.Cos (Radians lat1)))
        * ONE_DEGREE := by
  unfold Distance
  rw [if_neg hc]
  simp only [if_pos h2]

theorem Distance_planar_3d {lat1 lon1 lat2 lon2 : F} {h : Bool} (ele1 ele2 : F) (threeD : Bool)
    (hc : ¬(h = true ∨ (|lat1 - lat2| > 0.2 ∨ |lon1 - lon2| > 0.2)))
    (h3 : ¬(threeD = false ∨ ele1 = ele2)) :
    Distance lat1 lon1 ele1 lat2 lon2 ele2 threeD h
      = GoMath.Sqrt (GoMath.Pow (Distance lat1 lon1 ele1 lat2 lon2 ele2 false h) 2
          + GoMath.Pow (ele1 - ele2) 2) := by
  rw [Distance_planar_2d ele1 ele2 false hc (Or.inl rfl)]
  unfold Distance
  rw [if_neg hc]
  simp only [if_neg h3]

end DistanceFacts

/-- C8 (counterexample): for two points one degree of latitude apart, with
elevations 0 and 1000, the 3D distance is not `sqrt(d2^2 + (ele1-ele2)^2)`. -/
theorem Distance_threeD_far_not_pythagoras :
    Distance (0 : ℝ) 0 0 1 0 1000 true false
      ≠ Real.sqrt (Distance (0 : ℝ) 0 0 1 0 1000 false false ^ 2 + (0 - 1000) ^ 2) := by
  have hc : false = true ∨ (|(0 : ℝ) - 1| > 0.2 ∨ |(0 : ℝ) - 0| > 0.2) :=
    Or.inr (Or.inl (by norm_num [lt_abs]))
  rw [Distance_of_guard 0 1000 true hc, Distance_of_guard 0 1000 false hc]
  intro h
  have h0 : (0 : ℝ) ≤ HaversineDistance (0 : ℝ) 0 1 0 ^ 2 + (0 - 1000) ^ 2 := by positivity
  have hsq := Real.sq_sqrt h0
  rw [← h] at hsq
  nlinarith

/-- C8 (amended): in the planar case (flag unset, both deltas at most 0.2) with
`threeD` set and different elevations, `Distance` is
`sqrt(d2^2 + (ele1-ele2)^2)` for the 2D distance `d2` of the same coordinates;
with `threeD` unset or equal elevations it is `d2`; and in the haversine case
(flag set or a delta above 0.2) it is `d2`, the great-circle distance, whatever
`threeD` and the elevations are. -/
theorem Distance_threeD (lat1 lon1 ele1 lat2 lon2 ele2 : ℝ) (threeD h : Bool) :
    ((h = false ∧ |lat1 - lat2| ≤ 0.2 ∧ |lon1 - lon2| ≤ 0.2) → threeD = true → ele1 ≠ ele2 →
        Distance lat1 lon1 ele1 lat2 lon2 ele2 threeD h
          = Real.sqrt (Distance lat1 lon1 ele1 lat2 lon2 ele2 false h ^ 2 + (ele1 - ele2) ^ 2))
      ∧ ((threeD = false ∨ ele1 = ele2) →
        Distance lat1 lon1 ele1 lat2 lon2 ele2 threeD h
          = Distance lat1 lon1 ele1 lat2 lon2 ele2 false h)
      ∧ ((h = true ∨ |lat1 - lat2| > 0.2 ∨ |lon1 - lon2| > 0.2) →
        Distance lat1 lon1 ele1 lat2 lon2 ele2 threeD h
          = Distance lat1 lon1 ele1 lat2 lon2 ele2 false h) := by
  refine ⟨?_, ?_, ?_⟩
  · rintro ⟨hh, h1, h2⟩ h3 hne
    have hc := not_haversine_guard hh h1 h2
    have h3' : ¬(threeD = false ∨ ele1 = ele2) := by
      rintro (h' | h')
      · rw [h3] at h'
        exact Bool.noConfusion h'
      · exact hne h'
    rw [Distance_planar_3d ele1 ele2 threeD hc h3']
    simp only [GoMath_Sqrt_real, GoMath_Pow_two_real]
  · intro h2
    by_cases hc : h = true ∨ (|lat1 - lat2| > 0.2 ∨ |lon1 - lon2| > 0.2)
    · rw [Distance_of_guard ele1 ele2 threeD hc, Distance_of_guard ele1 ele2 false hc]
    · rw [Distance_planar_2d ele1 ele2 threeD hc h2,
        Distance_planar_2d ele1 ele2 false hc (Or.inl rfl)]
  · intro hc
    rw [Distance_of_guard ele1 ele2 threeD hc, Distance_of_guard ele1 ele2 false hc]

/-- Witness for C8: at latitudes 0 and 0.1 with elevations 0 and 100 the 3D
distance is the Pythagorean combination; one degree apart it is the 2D one. -/
theorem Distance_threeD_witness :
    Distance (0 : ℝ) 0 0 0.1 0 100 true false
        = Real.sqrt (Distance (0 : ℝ) 0 0 0.1 0 100 false false ^ 2 + (0 - 100) ^ 2)
      ∧ Distance (0 : ℝ) 0 7 0.1 0 7 true false = Distance (0 : ℝ) 0 7 0.1 0 7 false false
      ∧ Distance (0 : ℝ) 0 0 1 0 1000 true false = Distance (0 : ℝ) 0 0 1 0 1000 false false :=
  ⟨(Distance_threeD 0 0 0 0.1 0 100 true false).1 ⟨rfl, by norm_num [abs_le], by norm_num⟩ rfl
      (by norm_num),
    (Distance_threeD 0 0 7 0.1 0 7 true false).2.1 (Or.inr rfl),
    (Distance_threeD 0 0 0 1 0 1000 true false).2.2 (Or.inr (Or.inl (by norm_num [lt_abs])))⟩

/-- C9 (code defect): from `locLow` (elevation 0) to `locHigh` (elevation 100,
11112 m away) `ElevationAngle` returns 0, in radians and in degrees, although
neither the elevation difference nor the distance is below 1e-5 and the angle
of elevation `atan(100 / 11112)` is positive. -/
theorem ElevationAngle_uphill_is_zero :
    ElevationAngle (locLow : Location ℝ) locHigh true = 0
      ∧ ElevationAngle (locLow : Location ℝ) locHigh false = 0
      ∧ ¬(|(locHigh : Location ℝ).Elevation - (locLow : Location ℝ).Elevation| < 0.00001)
      ∧ (locHigh : Location ℝ).Distance2d locLow = 11112
      ∧ 0 < Real.arctan (((locHigh : Location ℝ).Elevation - (locLow : Location ℝ).Elevation)
          / (locHigh : Location ℝ).Distance2d locLow) := by
  have hd : (locHigh : Location ℝ).Distance2d locLow = 11112 := by
    have hc : ¬(false = true ∨ (|(0.1 : ℝ) - 0| > 0.2 ∨ |(0 : ℝ) - 0| > 0.2)) :=
      not_haversine_guard rfl (by norm_num [abs_le]) (by norm_num)
    show Distance (0.1 : ℝ) 0 0.0 0 0 0.0 false false = 11112
    rw [Distance_planar_2d 0.0 0.0 false hc (Or.inl rfl)]
    have hs : Real.sqrt ((0.1 - 0) * (0.1 - 0)
        + (0 - 0) * GoMath.Cos (Radians (0.1 : ℝ)) * ((0 - 0) * GoMath.Cos (Radians (0.1 : ℝ))))
        = 0.1 := by
      rw [show ((0.1 : ℝ) - 0) * (0.1 - 0)
        + (0 - 0) * GoMath.Cos (Radians (0.1 : ℝ)) * ((0 - 0) * GoMath.Cos (Radians (0.1 : ℝ)))
        = 0.1 * 0.1 by ring]
      exact Real.sqrt_mul_self (by norm_num)
    rw [GoMath_Sqrt_real, hs]
    norm_num [ONE_DEGREE]
  refine ⟨?_, ?_, ?_, hd, ?_⟩
  · norm_num [ElevationAngle, locLow, locHigh]
  · norm_num [ElevationAngle, locLow, locHigh]
  · norm_num [locLow, locHigh, abs_lt]
  · rw [hd, ← Real.arctan_zero]
    exact Real.arctan_strictMono (by norm_num [locLow, locHigh])

section SymmetryFacts

theorem Radians_sub_swap (a b : ℝ) : Radians (b - a) = -Radians (a - b) := by
  unfold Radians
  ring

theorem HaversineDistance_comm (lat1 lon1 lat2 lon2 : ℝ) :
    HaversineDistance lat1 lon1 lat2 lon2 = HaversineDistance lat2 lon2 lat1 lon1 := by
  have ha : Real.sin (Radians (lat2 - lat1) / 2) * Real.sin (Radians (lat2 - lat1) / 2)
      + Real.sin (Radians (lon2 - lon1) / 2) * Real.sin (Radians (lon2 - lon1) / 2)
        * Real.cos (Radians lat2) * Real.cos (Radians lat1)
      = Real.sin (Radians (lat1 - lat2) / 2) * Real.sin (Radians (lat1 - lat2) / 2)
      + Real.sin (Radians (lon1 - lon2) / 2) * Real.sin (Radians (lon1 - lon2) / 2)
        * Real.cos (Radians lat1) * Real.cos (Radians lat2) := by
    rw [Radians_sub_swap lat1 lat2, Radians_sub_swap lon1 lon2]
    simp only [neg_div, Real.sin_neg]
    ring
  simp only [HaversineDistance, GoMath_Sin_real, GoMath_Cos_real, GoMath_Sqrt_real,
    GoMath_Atan2_real]
  rw [ha]

theorem haversine_guard_swap {lat1 lon1 lat2 lon2 : ℝ} {h : Bool} :
    (h = true ∨ (|lat2 - lat1| > 0.2 ∨ |lon2 - lon1| > 0.2))
      ↔ (h = true ∨ (|lat1 - lat2| > 0.2 ∨ |lon1 - lon2| > 0.2)) := by
  rw [abs_sub_comm lat2 lat1, abs_sub_comm lon2 lon1]

theorem planar_nonneg (lat1 lon1 lat2 lon2 : ℝ) :
    0 ≤ Real.sqrt ((lat1 - lat2) * (lat1 - lat2)
        + (lon1 - lon2) * Real.cos (Radians lat1) * ((lon1 - lon2) * Real.cos (Radians lat1)))
      * ONE_DEGREE :=
  mul_nonneg (Real.sqrt_nonneg _) ONE_DEGREE_pos.le

/-- The planar 2D distance from A to B equals the one from B to A exactly when
the longitudes agree or the two latitudes have cosines of equal square. -/
theorem planar_swap_iff (lat1 lon1 lat2 lon2 : ℝ) :
    Real.sqrt ((lat1 - lat2) * (lat1 - lat2)
        + (lon1 - lon2) * Real.cos (Radians lat1) * ((lon1 - lon2) * Real.cos (Radians lat1)))
      * ONE_DEGREE
      = Real.sqrt ((lat2 - lat1) * (lat2 - lat1)
        + (lon2 - lon1) * Real.cos (Radians lat2) * ((lon2 - lon1) * Real.cos (Radians lat2)))
      * ONE_DEGREE
    ↔ lon1 = lon2 ∨ Real.cos (Radians lat1) ^ 2 = Real.cos (Radians lat2) ^ 2 := by
  have hOD : (ONE_DEGREE : ℝ) ≠ 0 := ONE_DEGREE_pos.ne'
  rw [mul_left_inj' hOD, Real.sqrt_inj (add_nonneg (mul_self_nonneg _) (mul_self_nonneg _))
    (add_nonneg (mul_self_nonneg _) (mul_self_nonneg _))]
  constructor
  · intro h
    have hz : (lon1 - lon2) ^ 2
        * (Real.cos (Radians lat1) ^ 2 - Real.cos (Radians lat2) ^ 2) = 0 := by
      linear_combination h
    rcases mul_eq_zero.mp hz with h1 | h1
    · exact Or.inl (sub_eq_zero.mp ((pow_eq_zero_iff two_ne_zero).mp h1))
    · exact Or.inr (sub_eq_zero.mp h1)
  · rintro (h | h)
    · subst h
      ring
    · linear_combination (lon1 - lon2) ^ 2 * h

theorem pythagoras_swap_iff {d1 d2 : ℝ} (h1 : 0 ≤ d1) (h2 : 0 ≤ d2) (e1 e2 : ℝ) :
    Real.sqrt (d1 ^ 2 + (e1 - e2) ^ 2) = Real.sqrt (d2 ^ 2 + (e2 - e1) ^ 2) ↔ d1 = d2 := by
  rw [Real.sqrt_inj (by positivity) (by positivity)]
  constructor
  · intro h
    have hsq : d1 ^ 2 = d2 ^ 2 := by linear_combination h
    exact (sq_eq_sq₀ h1 h2).mp hsq
  · intro h
    subst h
    ring

/-- When `Distance` from A to B equals `Distance` from B to A. -/
theorem Distance_swap_iff (lat1 lon1 ele1 lat2 lon2 ele2 : ℝ) (threeD h : Bool) :
    Distance lat1 lon1 ele1 lat2 lon2 ele2 threeD h
        = Distance lat2 lon2 ele2 lat1 lon1 ele1 threeD h
      ↔ (h = true ∨ |lat1 - lat2| > 0.2 ∨ |lon1 - lon2| > 0.2)
        ∨ lon1 = lon2 ∨ Real.cos (Radians lat1) ^ 2 = Real.cos (Radians lat2) ^ 2 := by
  by_cases hc : h = true ∨ (|lat1 - lat2| > 0.2 ∨ |lon1 - lon2| > 0.2)
  · refine iff_of_true ?_ (Or.inl hc)
    rw [Distance_of_guard ele1 ele2 threeD hc,
      Distance_of_guard ele2 ele1 threeD (haversine_guard_swap.mpr hc)]
    exact HaversineDistance_comm lat1 lon1 lat2 lon2
  · have hc' : ¬(h = true ∨ (|lat2 - lat1| > 0.2 ∨ |lon2 - lon1| > 0.2)) :=
      fun h' => hc (haversine_guard_swap.mp h')
    rw [or_iff_right hc]
    have h2d := planar_swap_iff lat1 lon1 lat2 lon2
    by_cases h2 : threeD = false ∨ ele1 = ele2
    · have h2' : threeD = false ∨ ele2 = ele1 := h2.imp id Eq.symm
      rw [Distance_planar_2d ele1 ele2 threeD hc h2, Distance_planar_2d ele2 ele1 threeD hc' h2']
      exact h2d
    · have h2' : ¬(threeD = false ∨ ele2 = ele1) := fun h' => h2 (h'.imp id Eq.symm)
      rw [Distance_planar_3d ele1 ele2 threeD hc h2, Distance_planar_3d ele2 ele1 threeD hc' h2',
        Distance_planar_2d ele1 ele2 false hc (Or.inl rfl),
        Distance_planar_2d ele2 ele1 false hc' (Or.inl rfl)]
      simp only [GoMath_Sqrt_real, GoMath_Pow_two_real, GoMath_Cos_real]
      rw [pythagoras_swap_iff (planar_nonneg lat1 lon1 lat2 lon2)
        (planar_nonneg lat2 lon2 lat1 lon1)]
      exact h2d

theorem cos_sq_tenth_degree_ne : Real.cos (Radians (0 : ℝ)) ^ 2 ≠ Real.cos (Radians (0.1 : ℝ)) ^ 2 := by
  have hpi := Real.pi_pos
  have hpos : 0 < Real.sin (Radians (0.1 : ℝ)) := by
    apply Real.sin_pos_of_pos_of_lt_pi
    · unfold Radians
      simp only [GoMath_Pi_real]
      positivity
    · unfold Radians
      simp only [GoMath_Pi_real]
      linarith
  have h0 : Radians (0 : ℝ) = 0 := by
    unfold Radians
    simp
  rw [h0, Real.cos_zero]
  have hs := Real.sin_sq_add_cos_sq (Radians (0.1 : ℝ))
  intro h
  have : Real.sin (Radians (0.1 : ℝ)) ^ 2 = 0 := by linarith
  exact absurd ((pow_eq_zero_iff two_ne_zero).mp this) hpos.ne'

end SymmetryFacts

/-- C7 (counterexample): in the planar branch the 2D distance from (0, 0) to
(0.1, 0.1) differs from the distance from (0.1, 0.1) to (0, 0). -/
theorem Distance_planar_not_symmetric :
    Distance (0 : ℝ) 0 0 0.1 0.1 0 false false ≠ Distance (0.1 : ℝ) 0.1 0 0 0 0 false false := by
  intro h
  rcases (Distance_swap_iff 0 0 0 0.1 0.1 0 false false).mp h with hc | hc | hc
  · exact not_haversine_guard rfl (by norm_num [abs_le]) (by norm_num [abs_le]) hc
  · norm_num at hc
  · exact cos_sq_tenth_degree_ne hc

/-- C7 (amended): in exact arithmetic `Distance(A, B) = Distance(B, A)` holds
exactly when the haversine branch is taken (flag set, or a latitude or
longitude delta above 0.2), or the two longitudes are equal, or
`cos(radians(lat1))^2 = cos(radians(lat2))^2`; this is so for both values of
`threeD`. -/
theorem Distance_symmetric_iff (lat1 lon1 ele1 lat2 lon2 ele2 : ℝ) (threeD h : Bool) :
    Distance lat1 lon1 ele1 lat2 lon2 ele2 threeD h
        = Distance lat2 lon2 ele2 lat1 lon1 ele1 threeD h
      ↔ (h = true ∨ |lat1 - lat2| > 0.2 ∨ |lon1 - lon2| > 0.2)
        ∨ lon1 = lon2 ∨ Real.cos (Radians lat1) ^ 2 = Real.cos (Radians lat2) ^ 2 :=
  Distance_swap_iff lat1 lon1 ele1 lat2 lon2 ele2 threeD h

section ProjectionFacts

theorem Radians_Degrees (x : ℝ) : Radians (Degrees x) = x := by
  unfold Radians Degrees
  simp only [GoMath_Pi_real]
  field_simp

theorem Degrees_Radians (x : ℝ) : Degrees (Radians x) = x := by
  unfold Radians Degrees
  simp only [GoMath_Pi_real]
  field_simp

theorem Radians_sub (a b : ℝ) : Radians (a - b) = Radians a - Radians b := by
  unfold Radians
  ring

theorem Radians_bounds {x lo hi : ℝ} (h1 : lo < x) (h2 : x < hi) :
    lo * Real.pi / 180 < Radians x ∧ Radians x < hi * Real.pi / 180 := by
  have hpi := Real.pi_pos
  unfold Radians
  simp only [GoMath_Pi_real]
  constructor
  · apply div_lt_div_of_pos_right _ (by norm_num)
    exact mul_lt_mul_of_pos_right h1 hpi
  · apply div_lt_div_of_pos_right _ (by norm_num)
    exact mul_lt_mul_of_pos_right h2 hpi

theorem sin_half_mul_self (u : ℝ) :
    Real.sin (u / 2) * Real.sin (u / 2) = (1 - Real.cos u) / 2 := by
  have h := Real.cos_two_mul' (u / 2)
  have h1 := Real.sin_sq_add_cos_sq (u / 2)
  rw [show 2 * (u / 2) = u by ring] at h
  nlinarith

/-- The quantity `a` of `HaversineDistance` is `(1 - w) / 2` for the cosine `w`
of the central angle. -/
theorem haversine_a_eq (p1 p2 dl : ℝ) :
    Real.sin ((p1 - p2) / 2) * Real.sin ((p1 - p2) / 2)
        + Real.sin (dl / 2) * Real.sin (dl / 2) * Real.cos p1 * Real.cos p2
      = (1 - (Real.sin p1 * Real.sin p2 + Real.cos p1 * Real.cos p2 * Real.cos dl)) / 2 := by
  rw [sin_half_mul_self, sin_half_mul_self, Real.cos_sub]
  ring

theorem sphere_identity (s1 c1 s2 c2 sd cd : ℝ) (h1 : s1 ^ 2 + c1 ^ 2 = 1)
    (h2 : s2 ^ 2 + c2 ^ 2 = 1) (hd : sd ^ 2 + cd ^ 2 = 1) :
    (c1 * s2 - s1 * c2 * cd) ^ 2 + (sd * c2) ^ 2 + (s1 * s2 + c1 * c2 * cd) ^ 2 = 1 := by
  linear_combination (s2 ^ 2 + c2 ^ 2 * cd ^ 2) * h1 + h2 + c2 ^ 2 * hd

/-- The angle `c` of `HaversineDistance`: its cosine and its sine. -/
theorem haversine_angle (a : ℝ) (h0 : 0 ≤ a) (h1 : a ≤ 1) :
    Real.cos (2 * Complex.arg ⟨Real.sqrt (1 - a), Real.sqrt a⟩) = 1 - 2 * a
      ∧ Real.sin (2 * Complex.arg ⟨Real.sqrt (1 - a), Real.sqrt a⟩)
        = 2 * Real.sqrt a * Real.sqrt (1 - a) := by
  have h1a : 0 ≤ 1 - a := by linarith
  have habs : Complex.abs ⟨Real.sqrt (1 - a), Real.sqrt a⟩ = 1 := by
    rw [Complex.abs_apply, Complex.normSq_mk, Real.mul_self_sqrt h1a, Real.mul_self_sqrt h0]
    simp
  have hz0 : (⟨Real.sqrt (1 - a), Real.sqrt a⟩ : ℂ) ≠ 0 := by
    intro h
    rw [h] at habs
    simp at habs
  have hc : Real.cos (Complex.arg ⟨Real.sqrt (1 - a), Real.sqrt a⟩) = Real.sqrt (1 - a) := by
    rw [Complex.cos_arg hz0, habs]
    simp
  have hs : Real.sin (Complex.arg ⟨Real.sqrt (1 - a), Real.sqrt a⟩) = Real.sqrt a := by
    rw [Complex.sin_arg, habs]
    simp
  constructor
  · rw [Real.cos_two_mul, hc, Real.sq_sqrt h1a]
    ring
  · rw [Real.sin_two_mul, hc, hs]

/-- A point `(x, y)` at distance `s` from the origin is `s (cos θ, sin θ)` for
its argument `θ`, also when `s = 0`. -/
theorem polar_of_sq (x y s : ℝ) (hs : 0 ≤ s) (h : s ^ 2 = x ^ 2 + y ^ 2) :
    s * Real.cos (Complex.arg ⟨x, y⟩) = x ∧ s * Real.sin (Complex.arg ⟨x, y⟩) = y := by
  have habs : Complex.abs ⟨x, y⟩ = s := by
    rw [Complex.abs_apply, Complex.normSq_mk, ← sq, ← sq, ← h]
    exact Real.sqrt_sq hs
  by_cases hs0 : s = 0
  · rw [hs0] at h
    have hx2 : x ^ 2 = 0 := by nlinarith [sq_nonneg x, sq_nonneg y]
    have hy2 : y ^ 2 = 0 := by nlinarith [sq_nonneg x, sq_nonneg y]
    have hx : x = 0 := (pow_eq_zero_iff two_ne_zero).mp hx2
    have hy : y = 0 := (pow_eq_zero_iff two_ne_zero).mp hy2
    rw [hs0, hx, hy]
    simp
  · have hz : (⟨x, y⟩ : ℂ) ≠ 0 := by
      intro hz
      rw [hz] at habs
      simp at habs
      exact hs0 habs.symm
    rw [Complex.cos_arg hz, Complex.sin_arg, habs]
    constructor <;> field_simp

theorem arg_scaled (k d : ℝ) (hk : 0 < k) (h1 : -Real.pi < d) (h2 : d ≤ Real.pi) :
    Complex.arg ⟨k * Real.cos d, k * Real.sin d⟩ = d := by
  have h := Complex.arg_mul_cos_add_sin_mul_I hk (show d ∈ Set.Ioc (-Real.pi) Real.pi from ⟨h1, h2⟩)
  have hz : (⟨k * Real.cos d, k * Real.sin d⟩ : ℂ)
      = (k : ℂ) * (Complex.cos d + Complex.sin d * Complex.I) := by
    apply Complex.ext
    · simp [← Complex.ofReal_cos, ← Complex.ofReal_sin]
    · simp [← Complex.ofReal_cos, ← Complex.ofReal_sin]
  rw [hz]
  exact h

end ProjectionFacts

section ProjectionMain

theorem Move_Lat (ld : LocationDelta ℝ) (wp : Wpt ℝ) :
    (ld.Move wp).Lat = Degrees (Real.arcsin
      (Real.sin (Radians wp.Lat) * Real.cos (ld.Distance / 6371.0 / 1000.0)
        + Real.cos (Radians wp.Lat) * Real.sin (ld.Distance / 6371.0 / 1000.0)
          * Real.cos (Radians ld.Angle))) :=
  rfl

theorem Move_Lon (ld : LocationDelta ℝ) (wp : Wpt ℝ) :
    (ld.Move wp).Lon = Degrees (Radians wp.Lon + Complex.arg
      ⟨Real.cos (ld.Distance / 6371.0 / 1000.0) - Real.sin (Radians wp.Lat)
          * Real.sin (Real.arcsin
            (Real.sin (Radians wp.Lat) * Real.cos (ld.Distance / 6371.0 / 1000.0)
              + Real.cos (Radians wp.Lat) * Real.sin (ld.Distance / 6371.0 / 1000.0)
                * Real.cos (Radians ld.Angle))),
        Real.sin (Radians ld.Angle) * Real.sin (ld.Distance / 6371.0 / 1000.0)
          * Real.cos (Radians wp.Lat)⟩) :=
  rfl

theorem Bearing_radians (lat1 lon1 lat2 lon2 : ℝ) :
    Radians (Bearing lat1 lon1 lat2 lon2)
      = Complex.arg ⟨Real.cos (Radians lat1) * Real.sin (Radians lat2)
          - Real.sin (Radians lat1) * Real.cos (Radians lat2) * Real.cos (Radians (lon2 - lon1)),
        Real.sin (Radians (lon2 - lon1)) * Real.cos (Radians lat2)⟩ := by
  simp only [Bearing, Radians_Degrees, GoMath_Sin_real, GoMath_Cos_real, GoMath_Atan2_real]

theorem HaversineDistance_angle (lat1 lon1 lat2 lon2 : ℝ) :
    HaversineDistance lat1 lon1 lat2 lon2 / 6371.0 / 1000.0
      = 2 * Complex.arg
        ⟨Real.sqrt (1 - (1 - (Real.sin (Radians lat1) * Real.sin (Radians lat2)
            + Real.cos (Radians lat1) * Real.cos (Radians lat2)
              * Real.cos (Radians (lon2 - lon1)))) / 2),
          Real.sqrt ((1 - (Real.sin (Radians lat1) * Real.sin (Radians lat2)
            + Real.cos (Radians lat1) * Real.cos (Radians lat2)
              * Real.cos (Radians (lon2 - lon1)))) / 2)⟩ := by
  have ha := haversine_a_eq (Radians lat1) (Radians lat2) (Radians (lon1 - lon2))
  have hcos : Real.cos (Radians (lon1 - lon2)) = Real.cos (Radians (lon2 - lon1)) := by
    rw [Radians_sub_swap lon2 lon1, Real.cos_neg]
  rw [← Radians_sub, hcos] at ha
  simp only [HaversineDistance, EARTH_RADIUS, GoMath_Sin_real, GoMath_Cos_real, GoMath_Sqrt_real,
    GoMath_Atan2_real]
  rw [ha]
  norm_num
  ring

end ProjectionMain

section ProjectionTheorem

/-- The direct geodesic formulas of `Move` undo the bearing and the angle of
`HaversineDistance`, in radians. -/
theorem project_core (p1 p2 dl l t : ℝ)
    (hp1 : -(Real.pi / 2) < p1 ∧ p1 < Real.pi / 2)
    (hp2 : -(Real.pi / 2) < p2 ∧ p2 < Real.pi / 2)
    (hdl : -Real.pi < dl ∧ dl ≤ Real.pi)
    (hl : l = 2 * Complex.arg
      ⟨Real.sqrt (1 - (1 - (Real.sin p1 * Real.sin p2
          + Real.cos p1 * Real.cos p2 * Real.cos dl)) / 2),
        Real.sqrt ((1 - (Real.sin p1 * Real.sin p2
          + Real.cos p1 * Real.cos p2 * Real.cos dl)) / 2)⟩)
    (ht : t = Complex.arg ⟨Real.cos p1 * Real.sin p2 - Real.sin p1 * Real.cos p2 * Real.cos dl,
      Real.sin dl * Real.cos p2⟩) :
    Real.arcsin (Real.sin p1 * Real.cos l + Real.cos p1 * Real.sin l * Real.cos t) = p2
      ∧ Complex.arg ⟨Real.cos l - Real.sin p1 * Real.sin p2,
          Real.sin t * Real.sin l * Real.cos p1⟩ = dl := by
  have hc1 : 0 < Real.cos p1 := Real.cos_pos_of_mem_Ioo ⟨hp1.1, hp1.2⟩
  have hc2 : 0 < Real.cos p2 := Real.cos_pos_of_mem_Ioo ⟨hp2.1, hp2.2⟩
  have e1 := Real.sin_sq_add_cos_sq p1
  have e2 := Real.sin_sq_add_cos_sq p2
  have ed := Real.sin_sq_add_cos_sq dl
  have hid := sphere_identity _ _ _ _ _ _ e1 e2 ed
  have hwabs : |Real.sin p1 * Real.sin p2 + Real.cos p1 * Real.cos p2 * Real.cos dl| ≤ 1 := by
    apply abs_le_one_iff_mul_self_le_one.mpr
    nlinarith [sq_nonneg (Real.cos p1 * Real.sin p2 - Real.sin p1 * Real.cos p2 * Real.cos dl),
      sq_nonneg (Real.sin dl * Real.cos p2)]
  rw [abs_le] at hwabs
  obtain ⟨hcosc, hsinc⟩ := haversine_angle
    ((1 - (Real.sin p1 * Real.sin p2 + Real.cos p1 * Real.cos p2 * Real.cos dl)) / 2)
    (by linarith [hwabs.2]) (by linarith [hwabs.1])
  rw [← hl] at hcosc hsinc
  have hsin0 : 0 ≤ Real.sin l := by
    rw [hsinc]
    exact mul_nonneg (mul_nonneg (by norm_num) (Real.sqrt_nonneg _)) (Real.sqrt_nonneg _)
  have hsq : Real.sin l ^ 2
      = (Real.cos p1 * Real.sin p2 - Real.sin p1 * Real.cos p2 * Real.cos dl) ^ 2
        + (Real.sin dl * Real.cos p2) ^ 2 := by
    have hsc := Real.sin_sq_add_cos_sq l
    rw [hcosc] at hsc
    linear_combination hsc - hid
  obtain ⟨hpx, hpy⟩ := polar_of_sq _ _ _ hsin0 hsq
  rw [← ht] at hpx hpy
  have hlatarg : Real.sin p1 * Real.cos l + Real.cos p1 * Real.sin l * Real.cos t
      = Real.sin p2 := by
    linear_combination Real.sin p1 * hcosc + Real.cos p1 * hpx + Real.sin p2 * e1
  refine ⟨?_, ?_⟩
  · rw [hlatarg]
    exact Real.arcsin_sin hp2.1.le hp2.2.le
  · have hre : Real.cos l - Real.sin p1 * Real.sin p2
        = Real.cos p1 * Real.cos p2 * Real.cos dl := by
      linear_combination hcosc
    have him : Real.sin t * Real.sin l * Real.cos p1
        = Real.cos p1 * Real.cos p2 * Real.sin dl := by
      linear_combination Real.cos p1 * hpy
    rw [hre, him]
    exact arg_scaled _ _ (mul_pos hc1 hc2) hdl.1 hdl.2

/-- Moving a waypoint at `(lat1, lon1)` by the bearing and the great-circle
distance to `(lat2, lon2)` lands on `(lat2, lon2)`. -/
theorem Move_haversine_exact (lat1 lon1 lat2 lon2 : ℝ)
    (h1 : -90 < lat1 ∧ lat1 < 90) (h2 : -90 < lat2 ∧ lat2 < 90)
    (hlon : -180 < lon2 - lon1 ∧ lon2 - lon1 ≤ 180)
    (ld : LocationDelta ℝ) (wp : Wpt ℝ)
    (hA : ld.Angle = Bearing lat1 lon1 lat2 lon2)
    (hD : ld.Distance = HaversineDistance lat1 lon1 lat2 lon2)
    (hlat : wp.Lat = lat1) (hlon1 : wp.Lon = lon1) :
    (ld.Move wp).Lat = lat2 ∧ (ld.Move wp).Lon = lon2 := by
  have hpi := Real.pi_pos
  have hp1 := Radians_bounds h1.1 h1.2
  have hp2 := Radians_bounds h2.1 h2.2
  have hdl : -Real.pi < Radians (lon2 - lon1) ∧ Radians (lon2 - lon1) ≤ Real.pi := by
    unfold Radians
    simp only [GoMath_Pi_real]
    constructor
    · have := mul_lt_mul_of_pos_right hlon.1 hpi
      linarith
    · have := mul_le_mul_of_nonneg_right hlon.2 hpi.le
      linarith
  obtain ⟨clat, clon⟩ := project_core (Radians lat1) (Radians lat2) (Radians (lon2 - lon1))
    (ld.Distance / 6371.0 / 1000.0) (Radians ld.Angle)
    ⟨by linarith [hp1.1], by linarith [hp1.2]⟩ ⟨by linarith [hp2.1], by linarith [hp2.2]⟩ hdl
    (by rw [hD]; exact HaversineDistance_angle lat1 lon1 lat2 lon2)
    (by rw [hA]; exact Bearing_radians lat1 lon1 lat2 lon2)
  constructor
  · rw [Move_Lat, hlat, clat, Degrees_Radians]
  · rw [Move_Lon, hlat, clat, clon, hlon1, Radians_sub]
    rw [show Radians lon1 + (Radians lon2 - Radians lon1) = Radians lon2 by ring, Degrees_Radians]

end ProjectionTheorem

section NearFacts

theorem Radians_zero : Radians (0 : ℝ) = 0 := by
  unfold Radians
  simp

theorem Distance_origin_near : Distance (0 : ℝ) 0 0 0.1 0 0 false false = 11112 := by
  have hc : ¬(false = true ∨ (|(0 : ℝ) - 0.1| > 0.2 ∨ |(0 : ℝ) - 0| > 0.2)) :=
    not_haversine_guard rfl (by norm_num [abs_le]) (by norm_num)
  rw [Distance_planar_2d 0 0 false hc (Or.inl rfl)]
  have hs : Real.sqrt ((0 - 0.1) * (0 - 0.1)
      + (0 - 0) * GoMath.Cos (Radians (0 : ℝ)) * ((0 - 0) * GoMath.Cos (Radians (0 : ℝ))))
      = 0.1 := by
    rw [show ((0 : ℝ) - 0.1) * (0 - 0.1)
      + (0 - 0) * GoMath.Cos (Radians (0 : ℝ)) * ((0 - 0) * GoMath.Cos (Radians (0 : ℝ)))
      = 0.1 * 0.1 by ring]
    exact Real.sqrt_mul_self (by norm_num)
  rw [GoMath_Sqrt_real, hs]
  norm_num [ONE_DEGREE]

theorem Bearing_origin_near : Radians (Bearing (0 : ℝ) 0 0.1 0) = 0 := by
  have hpi := Real.pi_pos
  have hpos : 0 ≤ Real.sin (Radians (0.1 : ℝ)) := by
    apply Real.sin_nonneg_of_nonneg_of_le_pi
    · unfold Radians
      simp only [GoMath_Pi_real]
      positivity
    · unfold Radians
      simp only [GoMath_Pi_real]
      linarith
  have hz : (⟨Real.cos (Radians 0) * Real.sin (Radians 0.1)
        - Real.sin (Radians 0) * Real.cos (Radians 0.1) * Real.cos (Radians (0 - 0)),
      Real.sin (Radians (0 - 0)) * Real.cos (Radians 0.1)⟩ : ℂ)
      = ((Real.sin (Radians (0.1 : ℝ)) : ℝ) : ℂ) := by
    apply Complex.ext
    · simp only [Radians_zero, sub_self, Real.cos_zero, Real.sin_zero, Complex.ofReal_re]
      ring
    · simp only [Radians_zero, sub_self, Real.sin_zero, Complex.ofReal_im]
      ring
  rw [Bearing_radians, hz]
  exact Complex.arg_ofReal_of_nonneg hpos

/-- The latitude reached from (0, 0) with the bearing and the planar distance
to (0.1, 0). -/
theorem Move_origin_near_Lat :
    ((wptOrigin : Wpt ℝ).Move (wptOrigin.DistanceAngle wptNear)).Lat
      = 11112 / 6371.0 / 1000.0 * 180 / Real.pi := by
  have hpi := Real.pi_gt_three
  have hD : ((wptOrigin : Wpt ℝ).DistanceAngle wptNear).Distance = 11112 :=
    Distance_origin_near
  have hA : Radians ((wptOrigin : Wpt ℝ).DistanceAngle wptNear).Angle = 0 :=
    Bearing_origin_near
  have hL : (wptOrigin : Wpt ℝ).Lat = 0 := rfl
  show (((wptOrigin : Wpt ℝ).DistanceAngle wptNear).Move wptOrigin).Lat = _
  rw [Move_Lat, hD, hA, hL, Radians_zero, Real.sin_zero, Real.cos_zero, zero_mul, zero_add,
    one_mul, mul_one, Real.arcsin_sin (by norm_num; linarith) (by norm_num; linarith)]
  rfl

end NearFacts

/-- C4 (counterexample): from A = (0, 0) towards B = (0.1, 0), `DistanceAngle`
followed by `Move` leaves A at a latitude more than 1e-6 degrees away from that
of B. -/
theorem Move_DistanceAngle_near_misses :
    ¬(|((wptOrigin : Wpt ℝ).Move (wptOrigin.DistanceAngle wptNear)).Lat
          - (wptNear : Wpt ℝ).Lat| < 0.000001
        ∧ |((wptOrigin : Wpt ℝ).Move (wptOrigin.DistanceAngle wptNear)).Lon
          - (wptNear : Wpt ℝ).Lon| < 0.000001) := by
  rintro ⟨h, -⟩
  rw [Move_origin_near_Lat, abs_lt] at h
  have hpi := Real.pi_gt_d2
  have hN : (wptNear : Wpt ℝ).Lat = 0.1 := rfl
  rw [hN] at h
  have h1 := h.1
  have hlt : (11112 : ℝ) / 6371.0 / 1000.0 * 180 / Real.pi < 0.1 - 0.000001 := by
    rw [div_lt_iff₀ (by linarith)]
    norm_num
    linarith
  linarith

/-- C4 (amended): for waypoints A and B with latitudes of magnitude at most 89
degrees, longitudes of magnitude at most 180, a longitude difference
`B.Lon - A.Lon` of magnitude at most 179 (B is neither across the antimeridian
from A nor near the antipode of A) and a latitude or longitude delta of at least
0.21 (so that `DistanceAngle` measures the great-circle distance),
`A.Move(A.DistanceAngle(B))` leaves A within 1e-6 degrees of B in latitude and
in longitude.  The functions of `math` are those of `instGoMathReal`: there the
great-circle projection inverts bearing and distance, and the bounds keep the
inputs away from the poles, the antipode and the threshold `.2`, where the
rounding of `float64` is amplified. -/
theorem Move_DistanceAngle_far (A B : Wpt ℝ)
    (hA : |A.Lat| ≤ 89) (hB : |B.Lat| ≤ 89)
    (hlon : |A.Lon| ≤ 180 ∧ |B.Lon| ≤ 180 ∧ |B.Lon - A.Lon| ≤ 179)
    (hfar : 0.21 ≤ |A.Lat - B.Lat| ∨ 0.21 ≤ |A.Lon - B.Lon|) :
    |(A.Move (A.DistanceAngle B)).Lat - B.Lat| < 0.000001
      ∧ |(A.Move (A.DistanceAngle B)).Lon - B.Lon| < 0.000001 := by
  have hA' : -90 < A.Lat ∧ A.Lat < 90 := by
    rw [abs_le] at hA
    exact ⟨by linarith [hA.1], by linarith [hA.2]⟩
  have hB' : -90 < B.Lat ∧ B.Lat < 90 := by
    rw [abs_le] at hB
    exact ⟨by linarith [hB.1], by linarith [hB.2]⟩
  have hlon' : -180 < B.Lon - A.Lon ∧ B.Lon - A.Lon ≤ 180 := by
    have hd := abs_le.mp hlon.2.2
    exact ⟨by linarith [hd.1], by linarith [hd.2]⟩
  have hfar' : |A.Lat - B.Lat| > 0.2 ∨ |A.Lon - B.Lon| > 0.2 := by
    rcases hfar with h | h
    · exact Or.inl (lt_of_lt_of_le (by norm_num) h)
    · exact Or.inr (lt_of_lt_of_le (by norm_num) h)
  have h := Move_haversine_exact A.Lat A.Lon B.Lat B.Lon hA' hB' hlon' (A.DistanceAngle B) A rfl
    (Distance_of_guard 0 0 false (Or.inr hfar')) rfl rfl
  have h' : (A.Move (A.DistanceAngle B)).Lat = B.Lat ∧ (A.Move (A.DistanceAngle B)).Lon = B.Lon :=
    h
  constructor
  · rw [h'.1, sub_self, abs_zero]
    norm_num
  · rw [h'.2, sub_self, abs_zero]
    norm_num

/-- Witness for C4: the two waypoints of `TestMoveWpt`, (32.11111, 121.22222)
and (33.33333, 123.33333). -/
theorem Move_DistanceAngle_far_witness :
    |((wptTestA : Wpt ℝ).Move (wptTestA.DistanceAngle wptTestB)).Lat - 33.33333| < 0.000001
      ∧ |((wptTestA : Wpt ℝ).Move (wptTestA.DistanceAngle wptTestB)).Lon - 123.33333|
          < 0.000001 :=
  Move_DistanceAngle_far (wptTestA : Wpt ℝ) wptTestB
    (by norm_num [wptTestA, abs_le]) (by norm_num [wptTestB, abs_le])
    (by norm_num [wptTestA, wptTestB, abs_le])
    (Or.inl (by norm_num [wptTestA, wptTestB, le_abs]))

section LoopFacts

variable {F : Type} [LinearOrderedField F]

theorem foldl_add_eq_sum {α : Type} (f : α → F) (xs : List α) :
    ∀ init : F, xs.foldl (fun acc x => acc + f x) init = init + (xs.map f).sum := by
  induction xs with
  | nil => intro init; simp
  | cons x xs ih =>
    intro init
    rw [List.foldl_cons, ih, List.map_cons, List.sum_cons, add_assoc]

/-- What `lengthLoop` returns when started at index `i` with enough iterations
left: the running length plus the terms of the indices `i..n-1`. -/
theorem lengthLoop_eq (m : Wpt F → Wpt F → F) (ws : Waypoints F) :
    ∀ (fuel i : Nat) (length : F), ws.length ≤ i + fuel →
      lengthLoop m ws fuel i length
        = length + Finset.sum (Finset.Ico i ws.length)
            (fun j => m (ws.getD j {}) (ws.getD (j - 1) {})) := by
  intro fuel
  induction fuel with
  | zero =>
    intro i length h
    have hle : ws.length ≤ i := by omega
    simp [lengthLoop, Finset.Ico_eq_empty_of_le hle]
  | succ fuel ih =>
    intro i length h
    by_cases hi : i < ws.length
    · have hi1 : i - 1 < ws.length := Nat.lt_of_le_of_lt (Nat.sub_le i 1) hi
      rw [lengthLoop, dif_pos hi, ih (i + 1) _ (by omega), Finset.sum_eq_sum_Ico_succ_bot hi,
        List.getD_eq_getElem ws _ hi, List.getD_eq_getElem ws _ hi1, add_assoc]
      rfl
    · have hle : ws.length ≤ i := by omega
      rw [lengthLoop, dif_neg hi]
      simp [Finset.Ico_eq_empty_of_le hle]

end LoopFacts

section LengthFacts

variable {F : Type} [LinearOrderedField F] [GoMath F]

theorem lengthLoop_2D (ws : Waypoints F) :
    lengthLoop Wpt.Length2D ws ws.length 1 0 = specLength false ws := by
  rw [lengthLoop_eq Wpt.Length2D ws ws.length 1 0 (by omega), zero_add]
  rfl

theorem lengthLoop_3D (ws : Waypoints F) :
    lengthLoop Wpt.Length3D ws ws.length 1 0 = specLength true ws := by
  rw [lengthLoop_eq Wpt.Length3D ws ws.length 1 0 (by omega), zero_add]
  rfl

theorem specLength_short (threeD : Bool) (ws : Waypoints F) (h : ws.length ≤ 1) :
    specLength threeD ws = 0 := by
  unfold specLength
  rw [Finset.Ico_eq_empty_of_le h, Finset.sum_empty]

end LengthFacts

/-- C11: for every track segment `ts` and every route `r`, `Length2D` is the sum
over `i = 1..n-1` of the 2D `Distance` between waypoints `i` and `i-1`, and
`Length3D` the same sum of the 3D `Distance` with the waypoints' `Ele`; a
sequence of zero or one waypoint has length 0. -/
theorem Length_eq_sum_of_consecutive {F : Type} [LinearOrderedField F] [GoMath F]
    (ts : Trkseg F) (r : Rte F) :
    ts.Length2D = specLength false ts.Waypoints
      ∧ ts.Length3D = specLength true ts.Waypoints
      ∧ r.Length2D = specLength false r.Waypoints
      ∧ r.Length3D = specLength true r.Waypoints
      ∧ (ts.Waypoints.length ≤ 1 → ts.Length2D = 0 ∧ ts.Length3D = 0)
      ∧ (r.Waypoints.length ≤ 1 → r.Length2D = 0 ∧ r.Length3D = 0) := by
  have t2 : ts.Length2D = specLength false ts.Waypoints := lengthLoop_2D ts.Waypoints
  have t3 : ts.Length3D = specLength true ts.Waypoints := lengthLoop_3D ts.Waypoints
  have r2 : r.Length2D = specLength false r.Waypoints := lengthLoop_2D r.Waypoints
  have r3 : r.Length3D = specLength true r.Waypoints := lengthLoop_3D r.Waypoints
  refine ⟨t2, t3, r2, r3, fun h => ?_, fun h => ?_⟩
  · rw [t2, t3, specLength_short false _ h, specLength_short true _ h]
    exact ⟨rfl, rfl⟩
  · rw [r2, r3, specLength_short false _ h, specLength_short true _ h]
    exact ⟨rfl, rfl⟩

/-- Witness for C11: a segment and a route of one waypoint have length 0. -/
theorem Length_eq_sum_of_consecutive_witness :
    Trkseg.Length2D ({ Waypoints := [wptTestA] } : Trkseg ℝ) = 0
      ∧ Trkseg.Length3D ({ Waypoints := [wptTestA] } : Trkseg ℝ) = 0
      ∧ Rte.Length2D ({ Waypoints := [wptTestB] } : Rte ℝ) = 0
      ∧ Rte.Length3D ({ Waypoints := [wptTestB] } : Rte ℝ) = 0 :=
  have h := Length_eq_sum_of_consecutive ({ Waypoints := [wptTestA] } : Trkseg ℝ)
    ({ Waypoints := [wptTestB] } : Rte ℝ)
  ⟨(h.2.2.2.2.1 (le_refl 1)).1, (h.2.2.2.2.1 (le_refl 1)).2,
    (h.2.2.2.2.2 (le_refl 1)).1, (h.2.2.2.2.2 (le_refl 1)).2⟩

/-- C12: the 2D and 3D length of a document is the sum of the lengths of its
tracks, the length of a track is the sum of the lengths of its segments, and
two documents with equal `Tracks` have equal lengths, whatever their `Routes`
and `Waypoints` are. -/
theorem Length_additive {F : Type} [LinearOrderedField F] [GoMath F] (g : Gpx F) :
    g.Length2D = (g.Tracks.map Trk.Length2D).sum
      ∧ g.Length3D = (g.Tracks.map Trk.Length3D).sum
      ∧ (∀ t : Trk F, t.Length2D = (t.Segments.map Trkseg.Length2D).sum
          ∧ t.Length3D = (t.Segments.map Trkseg.Length3D).sum)
      ∧ (∀ g2 : Gpx F, g2.Tracks = g.Tracks →
          g2.Length2D = g.Length2D ∧ g2.Length3D = g.Length3D) := by
  refine ⟨?_, ?_, fun t => ⟨?_, ?_⟩, fun g2 h => ?_⟩
  · rw [Gpx.Length2D, foldl_add_eq_sum, zero_add]
  · rw [Gpx.Length3D, foldl_add_eq_sum, zero_add]
  · rw [Trk.Length2D, foldl_add_eq_sum, zero_add]
  · rw [Trk.Length3D, foldl_add_eq_sum, zero_add]
  · rw [Gpx.Length2D, Gpx.Length3D, Gpx.Length2D, Gpx.Length3D, h]
    exact ⟨rfl, rfl⟩

/-- Witness for C12: a document and the same document without its routes,
top-level waypoints and metadata have the same lengths. -/
theorem Length_additive_witness :
    Gpx.Length2D ({ (docFull : Gpx ℝ) with Routes := [], Waypoints := [], Metadata := none })
        = (docFull : Gpx ℝ).Length2D
      ∧ Gpx.Length3D ({ (docFull : Gpx ℝ) with Routes := [], Waypoints := [], Metadata := none })
        = (docFull : Gpx ℝ).Length3D :=
  (Length_additive (docFull : Gpx ℝ)).2.2.2 _ rfl

/-- C17: whatever the XML decoder does, `ParseWithContent` and `ParseWithReader`
return either a document and no error, or no document and an error: when the
decoding call reports a failure the returned document is `nil` and the error
is that failure, and when it succeeds the error is `nil` and the document is
the decoded one. -/
theorem Parse_returns_document_or_error {F : Type} [LinearOrderedField F]
    {Content Reader E : Type} (Unmarshal : Content → Gpx F → Gpx F × Option E)
    (Decode : Reader → Gpx F → Gpx F × Option E) (content : Content) (o : Reader) :
    (∀ e, (Unmarshal content NewGpx).2 = some e →
        ParseWithContent Unmarshal content = (none, some e))
      ∧ ((Unmarshal content NewGpx).2 = none →
        ParseWithContent Unmarshal content = (some (Unmarshal content NewGpx).1, none))
      ∧ (∀ e, (Decode o NewGpx).2 = some e → ParseWithReader Decode o = (none, some e))
      ∧ ((Decode o NewGpx).2 = none →
        ParseWithReader Decode o = (some (Decode o NewGpx).1, none))
      ∧ ¬((ParseWithContent Unmarshal content).1.isSome
          ∧ (ParseWithContent Unmarshal content).2.isSome)
      ∧ ¬((ParseWithReader Decode o).1.isSome ∧ (ParseWithReader Decode o).2.isSome) := by
  refine ⟨fun e h => ?_, fun h => ?_, fun e h => ?_, fun h => ?_, ?_, ?_⟩
  · simp only [ParseWithContent, h]
  · simp only [ParseWithContent, h]
  · simp only [ParseWithReader, h]
  · simp only [ParseWithReader, h]
  · rcases h : (Unmarshal content NewGpx).2 with _ | e <;> simp [ParseWithContent, h]
  · rcases h : (Decode o NewGpx).2 with _ | e <;> simp [ParseWithReader, h]

/-- Witness for C17: a decoder that always fails with `"EOF"` gives no document
and that error; one that stores the creator it reads and succeeds gives that
document and no error. -/
theorem Parse_returns_document_or_error_witness :
    ParseWithContent (F := ℚ) (fun (_ : String) g => (g, some "EOF")) "<gpx" = (none, some "EOF")
      ∧ ParseWithReader (F := ℚ) (E := String) (fun (c : String) g => ({ g with Creator := c }, none))
          "me" = (some { (NewGpx : Gpx ℚ) with Creator := "me" }, none) :=
  ⟨(Parse_returns_document_or_error (F := ℚ) (fun (_ : String) g => (g, some "EOF"))
      (fun (c : String) g => ({ g with Creator := c }, none)) "<gpx" "me").1 "EOF" rfl,
    (Parse_returns_document_or_error (F := ℚ) (E := String) (fun (_ : String) g => (g, some "EOF"))
      (fun (c : String) g => ({ g with Creator := c }, none)) "<gpx" "me").2.2.2.1 rfl⟩

/-- C18: `NewGpx()` returns a document with the five fixed root constants, no
`Metadata`, empty `Waypoints`, `Routes` and `Tracks`, and empty `Extensions`. -/
theorem NewGpx_constants {F : Type} [LinearOrderedField F] :
    (NewGpx : Gpx F).XMLNs = "http://www.topografix.com/GPX/1/1"
      ∧ (NewGpx : Gpx F).XMLNsXsi = "http://www.w3.org/2001/XMLSchema-instance"
      ∧ (NewGpx : Gpx F).XMLSchemaLoc
        = "http://www.topografix.com/GPX/1/1 http://www.topografix.com/GPX/1/1/gpx.xsd"
      ∧ (NewGpx : Gpx F).Version = "1.1"
      ∧ (NewGpx : Gpx F).Creator = "https://github.com/pikeszfish/gpxgo"
      ∧ (NewGpx : Gpx F).Metadata = none
      ∧ (NewGpx : Gpx F).Waypoints = []
      ∧ (NewGpx : Gpx F).Routes = []
      ∧ (NewGpx : Gpx F).Tracks = []
      ∧ (NewGpx : Gpx F).Extensions = "" :=
  ⟨rfl, rfl, rfl, rfl, rfl, rfl, rfl, rfl, rfl, rfl⟩

section UphillFacts

variable {F : Type} [LinearOrderedField F]

theorem foldl_zero_pair {α : Type} (f : α → F × F) (hf : ∀ x, f x = (0, 0)) (xs : List α) :
    xs.foldl (fun (acc : F × F) x => (acc.1 + (f x).1, acc.2 + (f x).2)) (0, 0) = (0, 0) := by
  induction xs with
  | nil => rfl
  | cons x xs ih =>
    rw [List.foldl_cons, hf x]
    simpa using ih

theorem Trkseg_UphillDownhill_zero (ts : Trkseg F) : ts.UphillDownhill = (0, 0) := by
  unfold Trkseg.UphillDownhill
  norm_num

theorem Trk_UphillDownhill_zero (t : Trk F) : t.UphillDownhill = (0, 0) :=
  foldl_zero_pair Trkseg.UphillDownhill Trkseg_UphillDownhill_zero t.Segments

end UphillFacts

/-- C19 (counterexample): for one segment with elevations 10, 15, 12 the sums of
the positive and of the negative elevation deltas are 5 and -3, but
`UphillDownhill` returns (0, 0). -/
theorem UphillDownhill_not_delta_sums :
    specUphillDownhill (docHill : Gpx ℚ) = (5, -3)
      ∧ (docHill : Gpx ℚ).UphillDownhill ≠ specUphillDownhill (docHill : Gpx ℚ) := by
  have hspec : specUphillDownhill (docHill : Gpx ℚ) = (5, -3) := by
    norm_num [specUphillDownhill, specDeltas, docHill, NewGpx, List.flatMap, List.filter]
  have hcode : (docHill : Gpx ℚ).UphillDownhill = (0, 0) :=
    foldl_zero_pair Trk.UphillDownhill Trk_UphillDownhill_zero _
  refine ⟨hspec, ?_⟩
  rw [hspec, hcode]
  intro h
  have h1 := congrArg Prod.fst h
  norm_num at h1

/-- C19 (amended): `UphillDownhill` returns (0, 0) for every document, every
track and every segment. -/
theorem UphillDownhill_is_zero {F : Type} [LinearOrderedField F] (g : Gpx F) (t : Trk F)
    (ts : Trkseg F) :
    g.UphillDownhill = (0, 0) ∧ t.UphillDownhill = (0, 0) ∧ ts.UphillDownhill = (0, 0) :=
  ⟨foldl_zero_pair Trk.UphillDownhill Trk_UphillDownhill_zero g.Tracks,
    Trk_UphillDownhill_zero t, Trkseg_UphillDownhill_zero ts⟩

/-- C20: `Gpx.RemoveTime` and `Gpx.RemoveElevation` leave `Routes`, the top-level
`Waypoints`, `Metadata`, the root constants and the top-level `Extensions` as
they were, and the document after the call agrees with the document before it
in everything but the `Time` (respectively `Ele`) of the track waypoints: the
tracks, segments and waypoints are as many, in the same order, with every other
field unchanged. -/
theorem Remove_frame {F : Type} [LinearOrderedField F] (g : Gpx F) :
    (g.RemoveTime.Routes = g.Routes ∧ g.RemoveTime.Waypoints = g.Waypoints
        ∧ g.RemoveTime.Metadata = g.Metadata ∧ g.RemoveTime.XMLName = g.XMLName
        ∧ g.RemoveTime.XMLNs = g.XMLNs ∧ g.RemoveTime.XMLNsXsi = g.XMLNsXsi
        ∧ g.RemoveTime.XMLSchemaLoc = g.XMLSchemaLoc ∧ g.RemoveTime.Version = g.Version
        ∧ g.RemoveTime.Creator = g.Creator ∧ g.RemoveTime.Extensions = g.Extensions
        ∧ g.RemoveTime.blankTrackTime = g.blankTrackTime)
      ∧ (g.RemoveElevation.Routes = g.Routes ∧ g.RemoveElevation.Waypoints = g.Waypoints
        ∧ g.RemoveElevation.Metadata = g.Metadata ∧ g.RemoveElevation.XMLName = g.XMLName
        ∧ g.RemoveElevation.XMLNs = g.XMLNs ∧ g.RemoveElevation.XMLNsXsi = g.XMLNsXsi
        ∧ g.RemoveElevation.XMLSchemaLoc = g.XMLSchemaLoc
        ∧ g.RemoveElevation.Version = g.Version
        ∧ g.RemoveElevation.Creator = g.Creator ∧ g.RemoveElevation.Extensions = g.Extensions
        ∧ g.RemoveElevation.blankTrackEle = g.blankTrackEle) := by
  rw [Gpx_RemoveTime_eq, Gpx_RemoveElevation_eq]
  exact ⟨⟨rfl, rfl, rfl, rfl, rfl, rfl, rfl, rfl, rfl, rfl, rfl⟩,
    ⟨rfl, rfl, rfl, rfl, rfl, rfl, rfl, rfl, rfl, rfl, rfl⟩⟩

/-- C13 (code defect): `Clone` copies the elements of `Tracks` into a fresh
array, but each copied `Trk` holds the slice header of the same `Segments`
array, and through it the same waypoint arrays.  For the document of
`memSmall`: the clone has the value of the source, and after the assignment
`c.Tracks[0].Segments[0].Waypoints[0].Ele = 5` on the clone `c` the source
document itself has elevation 5 at its track point, where it had 1233. -/
theorem Clone_shares_track_storage :
    (memSmall : Memory ℚ).load gpxSmall = docSmall
      ∧ (MGpx.Clone (memSmall : Memory ℚ) gpxSmall).1.load
          (MGpx.Clone (memSmall : Memory ℚ) gpxSmall).2
          = ((memSmall : Memory ℚ).load gpxSmall).Clone
      ∧ (MGpx.Clone (memSmall : Memory ℚ) gpxSmall).1.load gpxSmall = docSmall
      ∧ (MGpx.setTrackPointEle (MGpx.Clone (memSmall : Memory ℚ) gpxSmall).1
            (MGpx.Clone (memSmall : Memory ℚ) gpxSmall).2 0 0 0 5).map
          (fun m => m.load gpxSmall) = .ok docSmallRaised
      ∧ (docSmallRaised : Gpx ℚ) ≠ docSmall := by
  refine ⟨rfl, rfl, rfl, rfl, ?_⟩
  decide

/-- C16 (code defect): none of the four fields of `Bounds` carries the `attr`
flag, so a `<bounds>` element has no attribute and four child elements
`minlat`, `minlon`, `maxlat`, `maxlon`; the attributes of the sibling types
(`lat` and `lon` of a waypoint, `id` and `domain` of an email, `href` of a
link, `author` of a copyright) are flagged. -/
theorem Bounds_fields_are_not_attributes :
    attrNames BoundsTags = []
      ∧ childNames BoundsTags = ["minlat", "minlon", "maxlat", "maxlon"]
      ∧ attrNames WptTags = ["lat", "lon"]
      ∧ attrNames EmailTags = ["id", "domain"]
      ∧ attrNames LinkTags = ["href"]
      ∧ attrNames CopyrightTags = ["author"] := by
  decide

section SeedFacts

variable {F : Type} [LinearOrderedField F]

theorem merge_minBounds : (minBounds : gpxgo.Bounds F).merge minBounds = minBounds := by
  simp [Bounds.merge, minBounds]

theorem foldl_merge_minBounds {α : Type} (f : α → gpxgo.Bounds F) (xs : List α)
    (h : ∀ x ∈ xs, f x = minBounds) :
    xs.foldl (fun b x => b.merge (f x)) minBounds = minBounds := by
  induction xs with
  | nil => rfl
  | cons x xs ih =>
    rw [List.foldl_cons, h x (List.mem_cons_self x xs), merge_minBounds]
    exact ih fun y hy => h y (List.mem_cons_of_mem x hy)

theorem Trkseg_Bounds_of_nil (ts : Trkseg F) (h : ts.Waypoints = []) : ts.Bounds = minBounds := by
  simp [Trkseg.Bounds, h]

theorem Trk_Bounds_of_empty (t : Trk F) (h : ∀ seg ∈ t.Segments, seg.Waypoints = []) :
    t.Bounds = minBounds :=
  foldl_merge_minBounds Trkseg.Bounds t.Segments fun seg hseg => Trkseg_Bounds_of_nil seg (h seg hseg)

theorem Gpx_Bounds_of_empty (g : Gpx F)
    (h : ∀ trk ∈ g.Tracks, ∀ seg ∈ trk.Segments, seg.Waypoints = []) :
    g.Bounds = minBounds :=
  foldl_merge_minBounds Trk.Bounds g.Tracks fun trk htrk => Trk_Bounds_of_empty trk (h trk htrk)

end SeedFacts

/-- C21: for a document with zero tracks, and for one whose tracks contain no
waypoint, `Gpx.Bounds` returns exactly the seed of `minBounds`:
`MinLat = MinLon = MaxFloat64` and `MaxLat = MaxLon = -MaxFloat64`, so
`MinLat > MaxLat` and `MinLon > MaxLon`; and for a document whose track
waypoints have coordinates in the range of `float64`, the result satisfies
`MinLat <= MaxLat` and `MinLon <= MaxLon` exactly when the tracks contain at
least one waypoint. -/
theorem Gpx_Bounds_seed_iff_empty {F : Type} [LinearOrderedField F] (g : Gpx F)
    (hfin : ∀ trk ∈ g.Tracks, ∀ seg ∈ trk.Segments, ∀ wp ∈ seg.Waypoints,
      |wp.Lat| ≤ MaxFloat64 ∧ |wp.Lon| ≤ MaxFloat64) :
    (g.Tracks = [] → g.Bounds = minBounds)
      ∧ ((∀ trk ∈ g.Tracks, ∀ seg ∈ trk.Segments, seg.Waypoints = []) →
          g.Bounds = minBounds
            ∧ g.Bounds.MinLat = MaxFloat64 ∧ g.Bounds.MinLon = MaxFloat64
            ∧ g.Bounds.MaxLat = -MaxFloat64 ∧ g.Bounds.MaxLon = -MaxFloat64
            ∧ g.Bounds.MinLat > g.Bounds.MaxLat ∧ g.Bounds.MinLon > g.Bounds.MaxLon)
      ∧ ((g.Bounds.MinLat ≤ g.Bounds.MaxLat ∧ g.Bounds.MinLon ≤ g.Bounds.MaxLon)
          ↔ ∃ trk ∈ g.Tracks, ∃ seg ∈ trk.Segments, ∃ wp, wp ∈ seg.Waypoints) := by
  have hM := MaxFloat64_pos (F := F)
  have hseed : (∀ trk ∈ g.Tracks, ∀ seg ∈ trk.Segments, seg.Waypoints = []) →
      g.Bounds = minBounds
        ∧ g.Bounds.MinLat = MaxFloat64 ∧ g.Bounds.MinLon = MaxFloat64
        ∧ g.Bounds.MaxLat = -MaxFloat64 ∧ g.Bounds.MaxLon = -MaxFloat64
        ∧ g.Bounds.MinLat > g.Bounds.MaxLat ∧ g.Bounds.MinLon > g.Bounds.MaxLon := by
    intro h
    have hb := Gpx_Bounds_of_empty g h
    rw [hb]
    refine ⟨rfl, rfl, rfl, rfl, rfl, ?_, ?_⟩
    · show (MaxFloat64 : F) > -MaxFloat64
      linarith
    · show (MaxFloat64 : F) > -MaxFloat64
      linarith
  refine ⟨fun h0 => ?_, hseed, ?_, ?_⟩
  · refine (hseed fun trk htrk => ?_).1
    rw [h0] at htrk
    exact absurd htrk (List.not_mem_nil trk)
  · rintro ⟨hle, -⟩
    by_contra hnone
    have hempty : ∀ trk ∈ g.Tracks, ∀ seg ∈ trk.Segments, seg.Waypoints = [] := by
      intro trk htrk seg hseg
      rw [List.eq_nil_iff_forall_not_mem]
      intro wp hwp
      exact hnone ⟨trk, htrk, seg, hseg, wp, hwp⟩
    have hgt := (hseed hempty).2.2.2.2.2.1
    exact absurd hle (not_le.mpr hgt)
  · rintro ⟨trk, htrk, seg, hseg, wp, hwp⟩
    obtain ⟨hc, -⟩ := BoxOf_Gpx g hfin
    obtain ⟨p1, p2, p3, p4⟩ := hc wp ⟨trk, htrk, seg, hseg, hwp⟩
    exact ⟨le_trans p1 p2, le_trans p3 p4⟩

/-- Witness for C21: the fresh document has the seed as its bounds, and the
bounds of the document with one track point are ordered. -/
theorem Gpx_Bounds_seed_iff_empty_witness :
    (NewGpx : Gpx ℚ).Bounds = minBounds
      ∧ ((docSmall : Gpx ℚ).Bounds.MinLat ≤ (docSmall : Gpx ℚ).Bounds.MaxLat
        ∧ (docSmall : Gpx ℚ).Bounds.MinLon ≤ (docSmall : Gpx ℚ).Bounds.MaxLon) :=
  ⟨(Gpx_Bounds_seed_iff_empty (NewGpx : Gpx ℚ)
      (fun trk htrk => absurd htrk (List.not_mem_nil trk))).1 rfl,
    (Gpx_Bounds_seed_iff_empty (docSmall : Gpx ℚ)
      (by
        intro trk htrk seg hseg wp hwp
        simp only [docSmall, List.mem_singleton] at htrk
        subst htrk
        simp only [List.mem_singleton] at hseg
        subst hseg
        simp only [List.mem_singleton] at hwp
        subst hwp
        norm_num [abs_le, MaxFloat64])).2.2.mpr
      ⟨_, List.mem_singleton_self _, _, List.mem_singleton_self _, _,
        List.mem_singleton_self _⟩⟩

section OrderFacts

theorem HaversineDistance_nonneg (lat1 lon1 lat2 lon2 : ℝ) :
    0 ≤ HaversineDistance lat1 lon1 lat2 lon2 := by
  simp only [HaversineDistance, EARTH_RADIUS, GoMath_Sin_real, GoMath_Cos_real, GoMath_Sqrt_real,
    GoMath_Atan2_real]
  have harg : 0 ≤ Complex.arg
      ⟨Real.sqrt (1 - (Real.sin (Radians (lat1 - lat2) / 2) * Real.sin (Radians (lat1 - lat2) / 2)
          + Real.sin (Radians (lon1 - lon2) / 2) * Real.sin (Radians (lon1 - lon2) / 2)
            * Real.cos (Radians lat1) * Real.cos (Radians lat2))),
        Real.sqrt (Real.sin (Radians (lat1 - lat2) / 2) * Real.sin (Radians (lat1 - lat2) / 2)
          + Real.sin (Radians (lon1 - lon2) / 2) * Real.sin (Radians (lon1 - lon2) / 2)
            * Real.cos (Radians lat1) * Real.cos (Radians lat2))⟩ :=
    Complex.arg_nonneg_iff.mpr (Real.sqrt_nonneg _)
  positivity

/-- The quantity `a` of `HaversineDistance` lies between 0 and 1, so both
square roots are taken of non-negative numbers. -/
theorem haversine_a_range (lat1 lon1 lat2 lon2 : ℝ) :
    0 ≤ Real.sin (Radians (lat1 - lat2) / 2) * Real.sin (Radians (lat1 - lat2) / 2)
        + Real.sin (Radians (lon1 - lon2) / 2) * Real.sin (Radians (lon1 - lon2) / 2)
          * Real.cos (Radians lat1) * Real.cos (Radians lat2)
      ∧ Real.sin (Radians (lat1 - lat2) / 2) * Real.sin (Radians (lat1 - lat2) / 2)
        + Real.sin (Radians (lon1 - lon2) / 2) * Real.sin (Radians (lon1 - lon2) / 2)
          * Real.cos (Radians lat1) * Real.cos (Radians lat2) ≤ 1 := by
  rw [Radians_sub lat1 lat2, haversine_a_eq]
  have hid := sphere_identity _ _ _ _ _ _ (Real.sin_sq_add_cos_sq (Radians lat1))
    (Real.sin_sq_add_cos_sq (Radians lat2)) (Real.sin_sq_add_cos_sq (Radians (lon1 - lon2)))
  have hw : |Real.sin (Radians lat1) * Real.sin (Radians lat2)
      + Real.cos (Radians lat1) * Real.cos (Radians lat2) * Real.cos (Radians (lon1 - lon2))|
      ≤ 1 := by
    apply abs_le_one_iff_mul_self_le_one.mpr
    nlinarith [sq_nonneg (Real.cos (Radians lat1) * Real.sin (Radians lat2)
        - Real.sin (Radians lat1) * Real.cos (Radians lat2) * Real.cos (Radians (lon1 - lon2))),
      sq_nonneg (Real.sin (Radians (lon1 - lon2)) * Real.cos (Radians lat2))]
  rw [abs_le] at hw
  constructor
  · linarith [hw.2]
  · linarith [hw.1]

theorem Distance_nonneg (lat1 lon1 ele1 lat2 lon2 ele2 : ℝ) (threeD h : Bool) :
    0 ≤ Distance lat1 lon1 ele1 lat2 lon2 ele2 threeD h := by
  by_cases hc : h = true ∨ (|lat1 - lat2| > 0.2 ∨ |lon1 - lon2| > 0.2)
  · rw [Distance_of_guard ele1 ele2 threeD hc]
    exact HaversineDistance_nonneg lat1 lon1 lat2 lon2
  · by_cases h2 : threeD = false ∨ ele1 = ele2
    · rw [Distance_planar_2d ele1 ele2 threeD hc h2]
      exact planar_nonneg lat1 lon1 lat2 lon2
    · rw [Distance_planar_3d ele1 ele2 threeD hc h2]
      exact Real.sqrt_nonneg _

/-- With `threeD` unset the elevations do not enter the distance. -/
theorem Distance_2d_ele (lat1 lon1 lat2 lon2 : ℝ) (ele1 ele2 e1 e2 : ℝ) (h : Bool) :
    Distance lat1 lon1 ele1 lat2 lon2 ele2 false h = Distance lat1 lon1 e1 lat2 lon2 e2 false h := by
  by_cases hc : h = true ∨ (|lat1 - lat2| > 0.2 ∨ |lon1 - lon2| > 0.2)
  · rw [Distance_of_guard ele1 ele2 false hc, Distance_of_guard e1 e2 false hc]
  · rw [Distance_planar_2d ele1 ele2 false hc (Or.inl rfl),
      Distance_planar_2d e1 e2 false hc (Or.inl rfl)]

theorem Distance_2d_le_3d (lat1 lon1 ele1 lat2 lon2 ele2 : ℝ) (h : Bool) :
    Distance lat1 lon1 ele1 lat2 lon2 ele2 false h
      ≤ Distance lat1 lon1 ele1 lat2 lon2 ele2 true h := by
  by_cases hc : h = true ∨ (|lat1 - lat2| > 0.2 ∨ |lon1 - lon2| > 0.2)
  · rw [Distance_of_guard ele1 ele2 false hc, Distance_of_guard ele1 ele2 true hc]
  · by_cases h2 : true = false ∨ ele1 = ele2
    · rw [Distance_planar_2d ele1 ele2 true hc h2,
        Distance_planar_2d ele1 ele2 false hc (Or.inl rfl)]
    · rw [Distance_planar_3d ele1 ele2 true hc h2]
      simp only [GoMath_Sqrt_real, GoMath_Pow_two_real]
      have hd := Distance_nonneg lat1 lon1 ele1 lat2 lon2 ele2 false h
      calc Distance lat1 lon1 ele1 lat2 lon2 ele2 false h
          = Real.sqrt (Distance lat1 lon1 ele1 lat2 lon2 ele2 false h ^ 2) :=
            (Real.sqrt_sq hd).symm
        _ ≤ Real.sqrt (Distance lat1 lon1 ele1 lat2 lon2 ele2 false h ^ 2 + (ele1 - ele2) ^ 2) :=
            Real.sqrt_le_sqrt (by nlinarith [sq_nonneg (ele1 - ele2)])

theorem Wpt_Length2D_nonneg (wp wp2 : Wpt ℝ) : 0 ≤ wp.Length2D wp2 :=
  Distance_nonneg _ _ _ _ _ _ _ _

theorem Wpt_Length2D_le_Length3D (wp wp2 : Wpt ℝ) : wp.Length2D wp2 ≤ wp.Length3D wp2 := by
  unfold Wpt.Length2D Wpt.Length3D
  rw [Distance_2d_ele wp.Lat wp.Lon wp2.Lat wp2.Lon 0.0 0.0 wp.Ele wp2.Ele false]
  exact Distance_2d_le_3d _ _ _ _ _ _ _

theorem lengthLoop_nonneg (ws : Waypoints ℝ) : 0 ≤ lengthLoop Wpt.Length2D ws ws.length 1 0 := by
  rw [lengthLoop_eq Wpt.Length2D ws ws.length 1 0 (by omega), zero_add]
  exact Finset.sum_nonneg fun i _ => Wpt_Length2D_nonneg _ _

theorem lengthLoop_2D_le_3D (ws : Waypoints ℝ) :
    lengthLoop Wpt.Length2D ws ws.length 1 0 ≤ lengthLoop Wpt.Length3D ws ws.length 1 0 := by
  rw [lengthLoop_eq Wpt.Length2D ws ws.length 1 0 (by omega),
    lengthLoop_eq Wpt.Length3D ws ws.length 1 0 (by omega), zero_add, zero_add]
  exact Finset.sum_le_sum fun i _ => Wpt_Length2D_le_Length3D _ _

theorem list_sum_map_nonneg {α : Type} (f : α → ℝ) (hf : ∀ x, 0 ≤ f x) (xs : List α) :
    0 ≤ (xs.map f).sum := by
  induction xs with
  | nil => simp
  | cons x xs ih =>
    rw [List.map_cons, List.sum_cons]
    exact add_nonneg (hf x) ih

theorem list_sum_map_le {α : Type} (f k : α → ℝ) (hfk : ∀ x, f x ≤ k x) (xs : List α) :
    (xs.map f).sum ≤ (xs.map k).sum := by
  induction xs with
  | nil => simp
  | cons x xs ih =>
    rw [List.map_cons, List.sum_cons, List.map_cons, List.sum_cons]
    exact add_le_add (hfk x) ih

theorem Trkseg_Length_order (ts : Trkseg ℝ) : 0 ≤ ts.Length2D ∧ ts.Length2D ≤ ts.Length3D :=
  ⟨lengthLoop_nonneg ts.Waypoints, lengthLoop_2D_le_3D ts.Waypoints⟩

theorem Trk_Length_order (t : Trk ℝ) : 0 ≤ t.Length2D ∧ t.Length2D ≤ t.Length3D := by
  rw [Trk.Length2D, Trk.Length3D, foldl_add_eq_sum, foldl_add_eq_sum, zero_add, zero_add]
  exact ⟨list_sum_map_nonneg _ (fun seg => (Trkseg_Length_order seg).1) _,
    list_sum_map_le _ _ (fun seg => (Trkseg_Length_order seg).2) _⟩

end OrderFacts

/-- In exact arithmetic (`float64` as the real numbers) `Distance` is
non-negative and the 3D distance of two positions is at least their 2D distance;
so is `Length3D` to `Length2D` for every pair of waypoints, and for every
segment, route, track and document `Length3D >= Length2D >= 0`.  There the sum
`a` of `HaversineDistance` lies in [0, 1] (`haversine_a_range`); it is the
rounding of `float64` that can take it above 1. -/
theorem Length3D_ge_Length2D_ge_zero (lat1 lon1 ele1 lat2 lon2 ele2 : ℝ) (threeD h : Bool)
    (wp wp2 : Wpt ℝ) (ts : Trkseg ℝ) (r : Rte ℝ) (t : Trk ℝ) (g : Gpx ℝ) :
    0 ≤ Distance lat1 lon1 ele1 lat2 lon2 ele2 threeD h
      ∧ Distance lat1 lon1 ele1 lat2 lon2 ele2 false h
          ≤ Distance lat1 lon1 ele1 lat2 lon2 ele2 true h
      ∧ (0 ≤ wp.Length2D wp2 ∧ wp.Length2D wp2 ≤ wp.Length3D wp2)
      ∧ (0 ≤ ts.Length2D ∧ ts.Length2D ≤ ts.Length3D)
      ∧ (0 ≤ r.Length2D ∧ r.Length2D ≤ r.Length3D)
      ∧ (0 ≤ t.Length2D ∧ t.Length2D ≤ t.Length3D)
      ∧ (0 ≤ g.Length2D ∧ g.Length2D ≤ g.Length3D) := by
  refine ⟨Distance_nonneg _ _ _ _ _ _ _ _, Distance_2d_le_3d _ _ _ _ _ _ _,
    ⟨Wpt_Length2D_nonneg wp wp2, Wpt_Length2D_le_Length3D wp wp2⟩, Trkseg_Length_order ts,
    ⟨lengthLoop_nonneg r.Waypoints, lengthLoop_2D_le_3D r.Waypoints⟩, Trk_Length_order t, ?_⟩
  rw [Gpx.Length2D, Gpx.Length3D, foldl_add_eq_sum, foldl_add_eq_sum, zero_add, zero_add]
  exact ⟨list_sum_map_nonneg _ (fun trk => (Trk_Length_order trk).1) _,
    list_sum_map_le _ _ (fun trk => (Trk_Length_order trk).2) _⟩

section AntipodalFacts

/-! The `float64` operations of `Distance` and `HaversineDistance` at the
positions (2.5, -90) and (-2.5, 90), in the order of evaluation: the constants,
the two differences, the four calls of `Radians`, the halves, the products of
`math.Sin` and `math.Cos` values, the sum `a` and the difference `1 - a`. -/

theorem antipodal_lat : round64 (2.5 : ℚ) = (5 / 2) := by
  have h := round64_of_near (2.5 : ℚ) (1) (5629499534213120)
    (by norm_num [abs_of_pos, abs_of_neg]) (by norm_num [abs_of_pos, abs_of_neg])
    (by norm_num [abs_lt])
  rw [h]
  norm_num

theorem antipodal_neg_lat : round64 (-2.5 : ℚ) = (-5 / 2) := by
  have h := round64_of_near (-2.5 : ℚ) (1) (-5629499534213120)
    (by norm_num [abs_of_pos, abs_of_neg]) (by norm_num [abs_of_pos, abs_of_neg])
    (by norm_num [abs_lt])
  rw [h]
  norm_num

theorem round64_neg_90 : round64 (-90 : ℚ) = (-90) := by
  have h := round64_of_near (-90 : ℚ) (6) (-6333186975989760)
    (by norm_num [abs_of_pos, abs_of_neg]) (by norm_num [abs_of_pos, abs_of_neg])
    (by norm_num [abs_lt])
  rw [h]
  norm_num

theorem round64_90 : round64 (90 : ℚ) = 90 := by
  have h := round64_of_near (90 : ℚ) (6) (6333186975989760)
    (by norm_num [abs_of_pos, abs_of_neg]) (by norm_num [abs_of_pos, abs_of_neg])
    (by norm_num [abs_lt])
  rw [h]
  norm_num

theorem round64_180 : round64 (180 : ℚ) = 180 := by
  have h := round64_of_near (180 : ℚ) (7) (6333186975989760)
    (by norm_num [abs_of_pos, abs_of_neg]) (by norm_num [abs_of_pos, abs_of_neg])
    (by norm_num [abs_lt])
  rw [h]
  norm_num

theorem round64_2 : round64 (2 : ℚ) = 2 := by
  have h := round64_of_near (2 : ℚ) (1) (4503599627370496)
    (by norm_num [abs_of_pos, abs_of_neg]) (by norm_num [abs_of_pos, abs_of_neg])
    (by norm_num [abs_lt])
  rw [h]
  norm_num

theorem round64_1 : round64 (1 : ℚ) = 1 := by
  have h := round64_of_near (1 : ℚ) (0) (4503599627370496)
    (by norm_num [abs_of_pos, abs_of_neg]) (by norm_num [abs_of_pos, abs_of_neg])
    (by norm_num [abs_lt])
  rw [h]
  norm_num

theorem antipodal_sub_lat : round64 ((5 / 2) - (-5 / 2) : ℚ) = 5 := by
  have h := round64_of_near ((5 / 2) - (-5 / 2) : ℚ) (2) (5629499534213120)
    (by norm_num [abs_of_pos, abs_of_neg]) (by norm_num [abs_of_pos, abs_of_neg])
    (by norm_num [abs_lt])
  rw [h]
  norm_num

theorem antipodal_sub_lon : round64 ((-90) - 90 : ℚ) = (-180) := by
  have h := round64_of_near ((-90) - 90 : ℚ) (7) (-6333186975989760)
    (by norm_num [abs_of_pos, abs_of_neg]) (by norm_num [abs_of_pos, abs_of_neg])
    (by norm_num [abs_lt])
  rw [h]
  norm_num

theorem antipodal_mul_dlat :
    round64 (5 * (884279719003555 / 281474976710656) : ℚ)
      = (4421398595017775 / 281474976710656) := by
  have h := round64_of_near (5 * (884279719003555 / 281474976710656) : ℚ) (3) (8842797190035550)
    (by norm_num [abs_of_pos, abs_of_neg]) (by norm_num [abs_of_pos, abs_of_neg])
    (by norm_num [abs_lt])
  rw [h]
  norm_num

theorem antipodal_div_dlat :
    round64 ((4421398595017775 / 281474976710656) / 180 : ℚ)
      = (6288211335136391 / 72057594037927936) := by
  have h := round64_of_near ((4421398595017775 / 281474976710656) / 180 : ℚ) (-4) (6288211335136391)
    (by norm_num [abs_of_pos, abs_of_neg]) (by norm_num [abs_of_pos, abs_of_neg])
    (by norm_num [abs_lt])
  rw [h]
  norm_num

theorem antipodal_mul_dlon :
    round64 ((-180) * (884279719003555 / 281474976710656) : ℚ)
      = (-4974073419394997 / 8796093022208) := by
  have h := round64_of_near
    ((-180) * (884279719003555 / 281474976710656) : ℚ)
    (9) (-4974073419394997)
    (by norm_num [abs_of_pos, abs_of_neg]) (by norm_num [abs_of_pos, abs_of_neg])
    (by norm_num [abs_lt])
  rw [h]
  norm_num

theorem antipodal_div_dlon :
    round64 ((-4974073419394997 / 8796093022208) / 180 : ℚ)
      = (-884279719003555 / 281474976710656) := by
  have h := round64_of_near ((-4974073419394997 / 8796093022208) / 180 : ℚ) (1) (-7074237752028440)
    (by norm_num [abs_of_pos, abs_of_neg]) (by norm_num [abs_of_pos, abs_of_neg])
    (by norm_num [abs_lt])
  rw [h]
  norm_num

theorem antipodal_mul_lat1 :
    round64 ((5 / 2) * (884279719003555 / 281474976710656) : ℚ)
      = (4421398595017775 / 562949953421312) := by
  have h := round64_of_near
    ((5 / 2) * (884279719003555 / 281474976710656) : ℚ)
    (2) (8842797190035550)
    (by norm_num [abs_of_pos, abs_of_neg]) (by norm_num [abs_of_pos, abs_of_neg])
    (by norm_num [abs_lt])
  rw [h]
  norm_num

theorem antipodal_div_lat1 :
    round64 ((4421398595017775 / 562949953421312) / 180 : ℚ)
      = (6288211335136391 / 144115188075855872) := by
  have h := round64_of_near ((4421398595017775 / 562949953421312) / 180 : ℚ) (-5) (6288211335136391)
    (by norm_num [abs_of_pos, abs_of_neg]) (by norm_num [abs_of_pos, abs_of_neg])
    (by norm_num [abs_lt])
  rw [h]
  norm_num

theorem antipodal_mul_lat2 :
    round64 ((-5 / 2) * (884279719003555 / 281474976710656) : ℚ)
      = (-4421398595017775 / 562949953421312) := by
  have h := round64_of_near
    ((-5 / 2) * (884279719003555 / 281474976710656) : ℚ)
    (2) (-8842797190035550)
    (by norm_num [abs_of_pos, abs_of_neg]) (by norm_num [abs_of_pos, abs_of_neg])
    (by norm_num [abs_lt])
  rw [h]
  norm_num

theorem antipodal_div_lat2 :
    round64 ((-4421398595017775 / 562949953421312) / 180 : ℚ)
      = (-6288211335136391 / 144115188075855872) := by
  have h := round64_of_near
    ((-4421398595017775 / 562949953421312) / 180 : ℚ)
    (-5) (-6288211335136391)
    (by norm_num [abs_of_pos, abs_of_neg]) (by norm_num [abs_of_pos, abs_of_neg])
    (by norm_num [abs_lt])
  rw [h]
  norm_num

theorem antipodal_half_dlat :
    round64 ((6288211335136391 / 72057594037927936) / 2 : ℚ)
      = (6288211335136391 / 144115188075855872) := by
  have h := round64_of_near ((6288211335136391 / 72057594037927936) / 2 : ℚ) (-5) (6288211335136391)
    (by norm_num [abs_of_pos, abs_of_neg]) (by norm_num [abs_of_pos, abs_of_neg])
    (by norm_num [abs_lt])
  rw [h]
  norm_num

theorem antipodal_half_dlon :
    round64 ((-884279719003555 / 281474976710656) / 2 : ℚ)
      = (-884279719003555 / 562949953421312) := by
  have h := round64_of_near ((-884279719003555 / 281474976710656) / 2 : ℚ) (0) (-7074237752028440)
    (by norm_num [abs_of_pos, abs_of_neg]) (by norm_num [abs_of_pos, abs_of_neg])
    (by norm_num [abs_lt])
  rw [h]
  norm_num

theorem antipodal_sin_sq_lat :
    round64 ((6286216213909009 / 144115188075855872) * (6286216213909009 / 144115188075855872) : ℚ)
      = (4387214401548047 / 2305843009213693952) := by
  have h := round64_of_near
    ((6286216213909009 / 144115188075855872) * (6286216213909009 / 144115188075855872) : ℚ)
    (-10) (8774428803096094)
    (by norm_num [abs_of_pos, abs_of_neg]) (by norm_num [abs_of_pos, abs_of_neg])
    (by norm_num [abs_lt])
  rw [h]
  norm_num

theorem antipodal_sin_sq_lon : round64 ((-1) * (-1) : ℚ) = 1 := by
  have h := round64_of_near ((-1) * (-1) : ℚ) (0) (4503599627370496)
    (by norm_num [abs_of_pos, abs_of_neg]) (by norm_num [abs_of_pos, abs_of_neg])
    (by norm_num [abs_lt])
  rw [h]
  norm_num

theorem antipodal_mul_cos1 :
    round64 (1 * (8998626396882423 / 9007199254740992) : ℚ)
      = (8998626396882423 / 9007199254740992) := by
  have h := round64_of_near (1 * (8998626396882423 / 9007199254740992) : ℚ) (-1) (8998626396882423)
    (by norm_num [abs_of_pos, abs_of_neg]) (by norm_num [abs_of_pos, abs_of_neg])
    (by norm_num [abs_lt])
  rw [h]
  norm_num

theorem antipodal_mul_cos2 :
    round64 ((8998626396882423 / 9007199254740992) * (8998626396882423 / 9007199254740992) : ℚ)
      = (4495030849242473 / 4503599627370496) := by
  have h := round64_of_near
    ((8998626396882423 / 9007199254740992) * (8998626396882423 / 9007199254740992) : ℚ)
    (-1) (8990061698484946)
    (by norm_num [abs_of_pos, abs_of_neg]) (by norm_num [abs_of_pos, abs_of_neg])
    (by norm_num [abs_lt])
  rw [h]
  norm_num

theorem antipodal_a :
    round64 ((4387214401548047 / 2305843009213693952) + (4495030849242473 / 4503599627370496) : ℚ)
      = (4503599627370497 / 4503599627370496) := by
  have h := round64_of_near
    ((4387214401548047 / 2305843009213693952) + (4495030849242473 / 4503599627370496) : ℚ)
    (0) (4503599627370497)
    (by norm_num [abs_of_pos, abs_of_neg]) (by norm_num [abs_of_pos, abs_of_neg])
    (by norm_num [abs_lt])
  rw [h]
  norm_num

theorem antipodal_one_sub_a :
    round64 (1 - (4503599627370497 / 4503599627370496) : ℚ)
      = (-1 / 4503599627370496) := by
  have h := round64_of_near
    (1 - (4503599627370497 / 4503599627370496) : ℚ)
    (-52) (-4503599627370496)
    (by norm_num [abs_of_pos, abs_of_neg]) (by norm_num [abs_of_pos, abs_of_neg])
    (by norm_num [abs_lt])
  rw [h]
  norm_num

end AntipodalFacts

/-- C22: the positions (2.5, -90) and (-2.5, 90) are antipodal.  For a `math`
package whose `Pi` is the `float64` nearest to π and whose `Sin` and `Cos`
return, at the arguments `HaversineDistance` passes them, the `float64` nearest
to the sine and to the cosine, the sum `a` is rounded to `1 + 2^-52`, and
`Distance` on `float64` is
`EARTH_RADIUS * (2 * Atan2(Sqrt(1 + 2^-52), Sqrt(-2^-52)))` whatever `threeD`
and the elevations are: the second square root is taken of a negative number
(in Go `math.Sqrt` is then NaN, and so are `math.Atan2` and the products). -/
theorem Distance_antipodal_sqrt_of_negative [GoMath ℚ] (ele1 ele2 : ℚ) (threeD : Bool)
    (hPi : (GoMath.Pi : ℚ) = 884279719003555 / 281474976710656)
    (hSinLat : GoMath.Sin (6288211335136391 / 144115188075855872 : ℚ)
      = 6286216213909009 / 144115188075855872)
    (hSinLon : GoMath.Sin (-884279719003555 / 562949953421312 : ℚ) = -1)
    (hCosLat1 : GoMath.Cos (6288211335136391 / 144115188075855872 : ℚ)
      = 8998626396882423 / 9007199254740992)
    (hCosLat2 : GoMath.Cos (-6288211335136391 / 144115188075855872 : ℚ)
      = 8998626396882423 / 9007199254740992) :
    (float64Ops ℚ).Distance ((float64Ops ℚ).Const 2.5) ((float64Ops ℚ).Const (-90)) ele1
        ((float64Ops ℚ).Const (-2.5)) ((float64Ops ℚ).Const 90) ele2 threeD false
      = (float64Ops ℚ).Mul ((float64Ops ℚ).Const (6371 * 1000))
          ((float64Ops ℚ).Mul ((float64Ops ℚ).Const 2)
            (GoMath.Atan2 (GoMath.Sqrt (1 + 2 ^ (-52 : ℤ) : ℚ))
              (GoMath.Sqrt (-2 ^ (-52 : ℤ) : ℚ))))
      ∧ (-2 ^ (-52 : ℤ) : ℚ) < 0 := by
  refine ⟨?_, by norm_num⟩
  have ha : (1 + 2 ^ (-52 : ℤ) : ℚ) = (4503599627370497 / 4503599627370496) := by norm_num
  have hb : (-2 ^ (-52 : ℤ) : ℚ) = (-1 / 4503599627370496) := by norm_num
  rw [ha, hb]
  have hguard : (float64Ops ℚ).Lt ((float64Ops ℚ).Const 0.2)
      ((float64Ops ℚ).Abs ((float64Ops ℚ).Sub ((float64Ops ℚ).Const 2.5)
        ((float64Ops ℚ).Const (-2.5)))) = true := by
    simp only [float64Ops, Rat.cast_id, antipodal_lat, antipodal_neg_lat, antipodal_sub_lat,
      decide_eq_true_eq]
    have h02 := round64_02 (F := ℚ)
    simp only [Rat.cast_id] at h02
    rw [h02]
    norm_num [abs_of_pos]
  unfold Float64Ops.Distance
  rw [if_pos (Or.inr (Or.inl hguard))]
  simp only [Float64Ops.HaversineDistance, Float64Ops.Radians, float64Ops, Rat.cast_id, hPi,
    antipodal_lat, antipodal_neg_lat, round64_neg_90, round64_90, round64_180, round64_2,
    round64_1, antipodal_sub_lat, antipodal_sub_lon, antipodal_mul_dlat, antipodal_div_dlat,
    antipodal_mul_dlon, antipodal_div_dlon, antipodal_mul_lat1, antipodal_div_lat1,
    antipodal_mul_lat2, antipodal_div_lat2, antipodal_half_dlat, antipodal_half_dlon,
    antipodal_sin_sq_lat, antipodal_sin_sq_lon, antipodal_mul_cos1, antipodal_mul_cos2,
    antipodal_a, antipodal_one_sub_a, hSinLat, hSinLon, hCosLat1, hCosLat2]

/-- Witness for C22: the table `mathTable` has the values assumed of the `math`
package, and with it `Distance` at (2.5, -90) and (-2.5, 90) is computed from the
square root of `-2^-52`. -/
theorem Distance_antipodal_sqrt_of_negative_witness :
    ((@GoMath.Pi ℚ mathTable) = 884279719003555 / 281474976710656
        ∧ @GoMath.Sin ℚ mathTable (6288211335136391 / 144115188075855872)
            = 6286216213909009 / 144115188075855872
        ∧ @GoMath.Sin ℚ mathTable (-884279719003555 / 562949953421312) = -1
        ∧ @GoMath.Cos ℚ mathTable (6288211335136391 / 144115188075855872)
            = 8998626396882423 / 9007199254740992
        ∧ @GoMath.Cos ℚ mathTable (-6288211335136391 / 144115188075855872)
            = 8998626396882423 / 9007199254740992)
      ∧ @Float64Ops.Distance ℚ mathTable (float64Ops ℚ) ((float64Ops ℚ).Const 2.5)
          ((float64Ops ℚ).Const (-90)) 0 ((float64Ops ℚ).Const (-2.5)) ((float64Ops ℚ).Const 90) 0
          false false
        = (float64Ops ℚ).Mul ((float64Ops ℚ).Const (6371 * 1000))
            ((float64Ops ℚ).Mul ((float64Ops ℚ).Const 2)
              (@GoMath.Atan2 ℚ mathTable (@GoMath.Sqrt ℚ mathTable (1 + 2 ^ (-52 : ℤ)))
                (@GoMath.Sqrt ℚ mathTable (-2 ^ (-52 : ℤ))))) :=
  ⟨⟨rfl, by norm_num [mathTable], by norm_num [mathTable], by norm_num [mathTable],
      by norm_num [mathTable]⟩,
    (@Distance_antipodal_sqrt_of_negative mathTable 0 0 false rfl (by norm_num [mathTable])
      (by norm_num [mathTable]) (by norm_num [mathTable]) (by norm_num [mathTable])).1⟩

end gpxgo
